import Mathlib

/-!
Verification development for the size/count/type representation layer:
the scalable-quantity algebra (`FixedOrScalableQuantity`, `ElementCount`,
`TypeSize`, `alignTo`), `StackOffset`, and the MVT/EVT/LLT classification
machinery, shallowly embedded from `llvm/Support/TypeSize.h`,
`llvm/lib/CodeGen/ValueTypes.cpp` and `llvm/lib/CodeGen/LowLevelType.cpp`.

Machine integers are embedded as `Nat` with explicit reduction modulo
`2 ^ w` exactly where the C++ unsigned arithmetic wraps; fallible
operations (assertions, C++ undefined behaviour such as division by zero)
are embedded as `Option`.
-/

namespace llvm

/-- Scale classification tag of a quantity (`FixedOrScalableQuantity::ScaleID`):
a bitmask with `None = 0`, `V = 1`, `M = 2`, `N = 4`, `MN = M | N = 6`. -/
inductive ScaleID where
  | None
  | V
  | M
  | N
  | MN
deriving DecidableEq, Repr

/-- The numeric value of a `ScaleID`, as the C++ enum assigns it
(`None = 0, V = 1 << 0, M = 1 << 1, N = 1 << 2, MN = M | N`). -/
def ScaleID.toBits : ScaleID → Nat
  | .None => 0
  | .V => 1
  | .M => 2
  | .N => 4
  | .MN => 6

/-- `details::FixedOrScalableQuantity<LeafTy, ValueTy>`: a magnitude
(`Quantity`, an unsigned machine integer, embedded as `Nat`) paired with a
scale classification tag (`Scale`). `ElementCount` instantiates it at
32-bit `unsigned`, `TypeSize` at `uint64_t`; operations that wrap take the
bit width `w` explicitly. -/
structure FixedOrScalableQuantity where
  Quantity : Nat
  Scale : ScaleID
deriving DecidableEq, Repr

namespace FixedOrScalableQuantity

/-- `getKnownMinValue()`: the minimum value this quantity can represent. -/
def getKnownMinValue (a : FixedOrScalableQuantity) : Nat := a.Quantity

/-- `getScale()`. -/
def getScale (a : FixedOrScalableQuantity) : ScaleID := a.Scale

/-- `isZero()`: `Quantity == 0`. -/
def isZero (a : FixedOrScalableQuantity) : Bool := a.Quantity == 0

/-- `isScalable()`: `Scale != ScaleID::None`. -/
def isScalable (a : FixedOrScalableQuantity) : Bool := a.Scale != ScaleID.None

/-- `isScalableV()`: tests the V bit of the scale mask. -/
def isScalableV (a : FixedOrScalableQuantity) : Bool :=
  (a.Scale.toBits &&& ScaleID.V.toBits) == ScaleID.V.toBits

/-- `isScalableM()`: tests the M bit of the scale mask. -/
def isScalableM (a : FixedOrScalableQuantity) : Bool :=
  (a.Scale.toBits &&& ScaleID.M.toBits) == ScaleID.M.toBits

/-- `isScalableN()`: tests the N bit of the scale mask. -/
def isScalableN (a : FixedOrScalableQuantity) : Bool :=
  (a.Scale.toBits &&& ScaleID.N.toBits) == ScaleID.N.toBits

/-- The precondition `operator+=`/`operator-=` assert: at least one operand
has zero magnitude, or both carry the same scale tag ("Incompatible types"). -/
def compatible (LHS RHS : FixedOrScalableQuantity) : Prop :=
  LHS.Quantity = 0 ∨ RHS.Quantity = 0 ∨ LHS.Scale = RHS.Scale

instance (LHS RHS : FixedOrScalableQuantity) : Decidable (compatible LHS RHS) := by
  unfold compatible; infer_instance

/-- `operator+` (via `operator+=`) at bit width `w`: the magnitudes add with
unsigned wraparound, and the scale tag becomes the right operand's unless the
right operand is zero (`if (!RHS.isZero()) LHS.Scale = RHS.Scale`). -/
def add (w : Nat) (LHS RHS : FixedOrScalableQuantity) : FixedOrScalableQuantity :=
  { Quantity := (LHS.Quantity + RHS.Quantity) % 2 ^ w
    Scale := if RHS.isZero then LHS.Scale else RHS.Scale }

/-- `operator-` (via `operator-=`) at bit width `w`: unsigned wraparound
subtraction of magnitudes; the scale-tag update is the same as addition's. -/
def sub (w : Nat) (LHS RHS : FixedOrScalableQuantity) : FixedOrScalableQuantity :=
  { Quantity := (LHS.Quantity + (2 ^ w - RHS.Quantity % 2 ^ w)) % 2 ^ w
    Scale := if RHS.isZero then LHS.Scale else RHS.Scale }

/-- `isKnownLT`: compares magnitudes when `!LHS.isScalable() ||
RHS.Scale == LHS.Scale`, otherwise no ordering is provable and it returns
false. -/
def isKnownLT (LHS RHS : FixedOrScalableQuantity) : Bool :=
  if !LHS.isScalable || (RHS.Scale == LHS.Scale) then
    decide (LHS.getKnownMinValue < RHS.getKnownMinValue)
  else
    false

/-- `isKnownGT`: note the guard is `LHS.isScalable() || RHS.Scale ==
LHS.Scale` — not negated, unlike the other three comparisons. -/
def isKnownGT (LHS RHS : FixedOrScalableQuantity) : Bool :=
  if LHS.isScalable || (RHS.Scale == LHS.Scale) then
    decide (RHS.getKnownMinValue < LHS.getKnownMinValue)
  else
    false

/-- `isKnownLE`: same guard shape as `isKnownLT`. -/
def isKnownLE (LHS RHS : FixedOrScalableQuantity) : Bool :=
  if !LHS.isScalable || (RHS.Scale == LHS.Scale) then
    decide (LHS.getKnownMinValue ≤ RHS.getKnownMinValue)
  else
    false

/-- `isKnownGE`: same guard shape as `isKnownLT`. -/
def isKnownGE (LHS RHS : FixedOrScalableQuantity) : Bool :=
  if !LHS.isScalable || (RHS.Scale == LHS.Scale) then
    decide (RHS.getKnownMinValue ≤ LHS.getKnownMinValue)
  else
    false

/-- `getFixedValue()`: asserts `!isScalable() || isZero()` before returning
the bare magnitude; the failing assertion (a request for a fixed value on a
non-zero scalable quantity) is embedded as `none`. -/
def getFixedValue (a : FixedOrScalableQuantity) : Option Nat :=
  if a.isScalable && !a.isZero then none else some a.getKnownMinValue

/-- `divideCoefficientBy(RHS)`: `LeafTy::get(getKnownMinValue() / RHS,
getScale())`. The C++ division has no guard; dividing by zero is undefined
behaviour, embedded as `none`. -/
def divideCoefficientBy (a : FixedOrScalableQuantity) (RHS : Nat) :
    Option FixedOrScalableQuantity :=
  if RHS = 0 then none
  else some { Quantity := a.getKnownMinValue / RHS, Scale := a.getScale }

/-- `hasKnownScalarFactor(RHS)`: `getScale() == RHS.getScale() &&
getKnownMinValue() % RHS.getKnownMinValue() == 0`. The `&&` short-circuits,
so `%` is evaluated only when the scales agree; a zero `RHS` magnitude there
is undefined behaviour, embedded as `none`. -/
def hasKnownScalarFactor (a RHS : FixedOrScalableQuantity) : Option Bool :=
  if a.getScale = RHS.getScale then
    if RHS.getKnownMinValue = 0 then none
    else some (a.getKnownMinValue % RHS.getKnownMinValue == 0)
  else
    some false

end FixedOrScalableQuantity

/-- `ElementCount`: `FixedOrScalableQuantity<ElementCount, unsigned>`
(32-bit magnitudes). -/
abbrev ElementCount := FixedOrScalableQuantity

/-- `ElementCount::getFixed(MinVal)`. -/
def ElementCount.getFixed (MinVal : Nat) : ElementCount := ⟨MinVal, ScaleID.None⟩

/-- `ElementCount::getScalable(MinVal)`: V-scaled. -/
def ElementCount.getScalable (MinVal : Nat) : ElementCount := ⟨MinVal, ScaleID.V⟩

/-- `ElementCount::get(MinVal, Scalable)` (boolean overload): scalable means
V-scaled. -/
def ElementCount.getWithScalable (MinVal : Nat) (Scalable : Bool) : ElementCount :=
  ⟨MinVal, if Scalable then ScaleID.V else ScaleID.None⟩

/-- `ElementCount::get(MinVal, Scale)` (`ScaleID` overload). -/
def ElementCount.get (MinVal : Nat) (Scale : ScaleID) : ElementCount := ⟨MinVal, Scale⟩

/-- `ElementCount::isScalar()`: `!isScalable() && getKnownMinValue() == 1`. -/
def ElementCount.isScalar (c : ElementCount) : Bool :=
  !(FixedOrScalableQuantity.isScalable c) && c.getKnownMinValue == 1

/-- `ElementCount::isVector()`: `(isScalableV() && getKnownMinValue() != 0)
|| getKnownMinValue() > 1`. -/
def ElementCount.isVector (c : ElementCount) : Bool :=
  (FixedOrScalableQuantity.isScalableV c && c.getKnownMinValue != 0)
    || decide (1 < c.getKnownMinValue)

/-- `TypeSize`: `FixedOrScalableQuantity<TypeSize, uint64_t>` (64-bit
magnitudes). -/
abbrev TypeSize := FixedOrScalableQuantity

/-- `TypeSize::getFixed(ExactSize)`. -/
def TypeSize.getFixed (ExactSize : Nat) : TypeSize := ⟨ExactSize, ScaleID.None⟩

/-- `TypeSize::getScalable(MinimumSize)`: V-scaled. -/
def TypeSize.getScalable (MinimumSize : Nat) : TypeSize := ⟨MinimumSize, ScaleID.V⟩

/-- `alignTo(Size, Align)` on `TypeSize`: `{(Size.getKnownMinValue() + Align
- 1) / Align * Align, Size.getScale()}` in `uint64_t` arithmetic (the sum
wraps modulo `2 ^ 64`); asserts `Align != 0`, embedded as `none`. -/
def alignTo (Size : TypeSize) (Align : Nat) : Option TypeSize :=
  if Align = 0 then none
  else some ⟨(Size.getKnownMinValue + Align - 1) % 2 ^ 64 / Align * Align,
             Size.getScale⟩

/-- `StackOffset`: one fixed and four independently-scaled `int64_t`
accumulators for stack byte offsets. -/
structure StackOffset where
  Fixed : Int
  ScalableV : Int
  ScalableM : Int
  ScalableN : Int
  ScalableMN : Int
deriving DecidableEq, Repr

/-- `StackOffset::get(Fixed, ScalableV, ScalableM, ScalableN, ScalableMN)`,
exactly as the source builds the record: `{Fixed, ScalableV, ScalableM,
ScalableM, ScalableMN}` (the fourth slot receives `ScalableM`; the
`ScalableN` parameter is not used). -/
def StackOffset.get (Fixed ScalableV ScalableM ScalableN ScalableMN : Int) :
    StackOffset :=
  ⟨Fixed, ScalableV, ScalableM, ScalableM, ScalableMN⟩

/-- `StackOffset::getFixed()` (component getter). -/
def StackOffset.getFixed (s : StackOffset) : Int := s.Fixed

/-- `StackOffset::getScalable()`: alias for the V component. -/
def StackOffset.getScalable (s : StackOffset) : Int := s.ScalableV

/-- `StackOffset::getScalableV()`. -/
def StackOffset.getScalableV (s : StackOffset) : Int := s.ScalableV

/-- `StackOffset::getScalableM()`. -/
def StackOffset.getScalableM (s : StackOffset) : Int := s.ScalableM

/-- `StackOffset::getScalableN()`. -/
def StackOffset.getScalableN (s : StackOffset) : Int := s.ScalableN

/-- `StackOffset::getScalableMN()`. -/
def StackOffset.getScalableMN (s : StackOffset) : Int := s.ScalableMN

end llvm


namespace llvm

/-- Modelled from the spec: the structural type graph (`llvm/IR/Type.h` and
`llvm/IR/DerivedTypes.h` are external collaborators, not among the sources).
One constructor per type kind the sources dispatch on; the Wasm reference
types `externref`/`funcref` are LLVM's pointer types in address spaces 10
and 20. -/
inductive LLVMType where
  | voidTy
  | integerTy (BitWidth : Nat)
  | halfTy
  | bfloatTy
  | floatTy
  | doubleTy
  | x86fp80Ty
  | fp128Ty
  | ppcfp128Ty
  | x86mmxTy
  | x86amxTy
  | pointerTy (AddressSpace : Nat)
  | fixedVectorTy (Elt : LLVMType) (NumElts : Nat)
  | scalableVectorTy (Elt : LLVMType) (MinNumElts : Nat)
  | scalableMatrixTy (Elt : LLVMType) (NumElts NumElts2 : Nat) (Scalable : Bool)
  | targetExtTy (TypeName : String)
  | metadataTy
deriving DecidableEq, Repr


set_option maxRecDepth 16384

/-- The closed MVT enumeration (`MVT::SimpleValueType`). The generated
header that declares it is not among the sources; the tag list is the
set of tags the sources name: the cases of `getTypeForEVT`'s switch,
plus `Other`, `Glue`, `Untyped`, `spirvbuiltin`, `iPTR` and the invalid
sentinel, which the sources name outside that table. -/
inductive SimpleValueType where
  | INVALID_SIMPLE_VALUE_TYPE
  | Other
  | isVoid
  | i1
  | i2
  | i4
  | i8
  | i16
  | i32
  | i64
  | i128
  | f16
  | bf16
  | f32
  | f64
  | f80
  | f128
  | ppcf128
  | x86mmx
  | aarch64svcount
  | x86amx
  | i64x8
  | externref
  | funcref
  | v1i1
  | v2i1
  | v4i1
  | v8i1
  | v16i1
  | v32i1
  | v64i1
  | v128i1
  | v256i1
  | v512i1
  | v1024i1
  | v2048i1
  | v128i2
  | v256i2
  | v64i4
  | v128i4
  | v1i8
  | v2i8
  | v4i8
  | v8i8
  | v16i8
  | v32i8
  | v64i8
  | v128i8
  | v256i8
  | v512i8
  | v1024i8
  | v1i16
  | v2i16
  | v3i16
  | v4i16
  | v8i16
  | v16i16
  | v32i16
  | v64i16
  | v128i16
  | v256i16
  | v512i16
  | v1i32
  | v2i32
  | v3i32
  | v4i32
  | v5i32
  | v6i32
  | v7i32
  | v8i32
  | v9i32
  | v10i32
  | v11i32
  | v12i32
  | v16i32
  | v32i32
  | v64i32
  | v128i32
  | v256i32
  | v512i32
  | v1024i32
  | v2048i32
  | v1i64
  | v2i64
  | v3i64
  | v4i64
  | v8i64
  | v16i64
  | v32i64
  | v64i64
  | v128i64
  | v256i64
  | v1i128
  | v1f16
  | v2f16
  | v3f16
  | v4f16
  | v8f16
  | v16f16
  | v32f16
  | v64f16
  | v128f16
  | v256f16
  | v512f16
  | v2bf16
  | v3bf16
  | v4bf16
  | v8bf16
  | v16bf16
  | v32bf16
  | v64bf16
  | v128bf16
  | v1f32
  | v2f32
  | v3f32
  | v4f32
  | v5f32
  | v6f32
  | v7f32
  | v8f32
  | v9f32
  | v10f32
  | v11f32
  | v12f32
  | v16f32
  | v32f32
  | v64f32
  | v128f32
  | v256f32
  | v512f32
  | v1024f32
  | v2048f32
  | v1f64
  | v2f64
  | v3f64
  | v4f64
  | v8f64
  | v16f64
  | v32f64
  | v64f64
  | v128f64
  | v256f64
  | nxv1i1
  | nxv2i1
  | nxv4i1
  | nxv8i1
  | nxv16i1
  | nxv32i1
  | nxv64i1
  | nxv1i8
  | nxv2i8
  | nxv4i8
  | nxv8i8
  | nxv16i8
  | nxv32i8
  | nxv64i8
  | nxv1i16
  | nxv2i16
  | nxv4i16
  | nxv8i16
  | nxv16i16
  | nxv32i16
  | nxv1i32
  | nxv2i32
  | nxv4i32
  | nxv8i32
  | nxv16i32
  | nxv32i32
  | nxv1i64
  | nxv2i64
  | nxv4i64
  | nxv8i64
  | nxv16i64
  | nxv32i64
  | nxv1f16
  | nxv2f16
  | nxv4f16
  | nxv8f16
  | nxv16f16
  | nxv32f16
  | nxv1bf16
  | nxv2bf16
  | nxv4bf16
  | nxv8bf16
  | nxv16bf16
  | nxv32bf16
  | nxv1f32
  | nxv2f32
  | nxv4f32
  | nxv8f32
  | nxv16f32
  | nxv1f64
  | nxv2f64
  | nxv4f64
  | nxv8f64
  | m1x1xi8
  | m1x2xi8
  | m1x4xi8
  | m1x8xi8
  | m1x16xi8
  | m1x32xi8
  | m1x64xi8
  | m1x1xi16
  | m1x2xi16
  | m1x4xi16
  | m1x8xi16
  | m1x16xi16
  | m1x32xi16
  | m1x1xi32
  | m1x2xi32
  | m1x4xi32
  | m1x8xi32
  | m1x16xi32
  | m1x1xi64
  | m1x2xi64
  | m1x4xi64
  | m1x8xi64
  | m1x1xbf16
  | m1x2xbf16
  | m1x4xbf16
  | m1x8xbf16
  | m1x16xbf16
  | m1x32xbf16
  | m1x1xf16
  | m1x2xf16
  | m1x4xf16
  | m1x8xf16
  | m1x16xf16
  | m1x32xf16
  | m1x1xf32
  | m1x2xf32
  | m1x4xf32
  | m1x8xf32
  | m1x16xf32
  | m1x1xf64
  | m1x2xf64
  | m1x4xf64
  | m1x8xf64
  | mx1xnx1xi8
  | mx1xnx2xi8
  | mx1xnx4xi8
  | mx1xnx8xi8
  | mx1xnx16xi8
  | mx1xnx32xi8
  | mx1xnx64xi8
  | mx1xnx1xi16
  | mx1xnx2xi16
  | mx1xnx4xi16
  | mx1xnx8xi16
  | mx1xnx16xi16
  | mx1xnx32xi16
  | mx1xnx1xi32
  | mx1xnx2xi32
  | mx1xnx4xi32
  | mx1xnx8xi32
  | mx1xnx16xi32
  | mx1xnx1xi64
  | mx1xnx2xi64
  | mx1xnx4xi64
  | mx1xnx8xi64
  | mx1xnx1xbf16
  | mx1xnx2xbf16
  | mx1xnx4xbf16
  | mx1xnx8xbf16
  | mx1xnx16xbf16
  | mx1xnx32xbf16
  | mx1xnx1xf16
  | mx1xnx2xf16
  | mx1xnx4xf16
  | mx1xnx8xf16
  | mx1xnx16xf16
  | mx1xnx32xf16
  | mx1xnx1xf32
  | mx1xnx2xf32
  | mx1xnx4xf32
  | mx1xnx8xf32
  | mx1xnx16xf32
  | mx1xnx1xf64
  | mx1xnx2xf64
  | mx1xnx4xf64
  | mx1xnx8xf64
  | Metadata
  | Glue
  | Untyped
  | spirvbuiltin
  | iPTR
deriving DecidableEq, Fintype, Repr

namespace SimpleValueType

/-- `EVT::getTypeForEVT`: the literal table from the source mapping each
simple tag to its canonical structural type; a non-extended tag the
switch does not list falls into the `default` branch, whose
`assert(isExtended())` fails — embedded as `none`. -/
def getTypeForEVT : SimpleValueType → Option LLVMType
  | .isVoid => some (.voidTy)
  | .i1 => some (.integerTy 1)
  | .i2 => some (.integerTy 2)
  | .i4 => some (.integerTy 4)
  | .i8 => some (.integerTy 8)
  | .i16 => some (.integerTy 16)
  | .i32 => some (.integerTy 32)
  | .i64 => some (.integerTy 64)
  | .i128 => some (.integerTy 128)
  | .f16 => some (.halfTy)
  | .bf16 => some (.bfloatTy)
  | .f32 => some (.floatTy)
  | .f64 => some (.doubleTy)
  | .f80 => some (.x86fp80Ty)
  | .f128 => some (.fp128Ty)
  | .ppcf128 => some (.ppcfp128Ty)
  | .x86mmx => some (.x86mmxTy)
  | .aarch64svcount => some (.targetExtTy "aarch64.svcount")
  | .x86amx => some (.x86amxTy)
  | .i64x8 => some (.integerTy 512)
  | .externref => some (.pointerTy 10)
  | .funcref => some (.pointerTy 20)
  | .v1i1 => some (.fixedVectorTy (.integerTy 1) 1)
  | .v2i1 => some (.fixedVectorTy (.integerTy 1) 2)
  | .v4i1 => some (.fixedVectorTy (.integerTy 1) 4)
  | .v8i1 => some (.fixedVectorTy (.integerTy 1) 8)
  | .v16i1 => some (.fixedVectorTy (.integerTy 1) 16)
  | .v32i1 => some (.fixedVectorTy (.integerTy 1) 32)
  | .v64i1 => some (.fixedVectorTy (.integerTy 1) 64)
  | .v128i1 => some (.fixedVectorTy (.integerTy 1) 128)
  | .v256i1 => some (.fixedVectorTy (.integerTy 1) 256)
  | .v512i1 => some (.fixedVectorTy (.integerTy 1) 512)
  | .v1024i1 => some (.fixedVectorTy (.integerTy 1) 1024)
  | .v2048i1 => some (.fixedVectorTy (.integerTy 1) 2048)
  | .v128i2 => some (.fixedVectorTy (.integerTy 2) 128)
  | .v256i2 => some (.fixedVectorTy (.integerTy 2) 256)
  | .v64i4 => some (.fixedVectorTy (.integerTy 4) 64)
  | .v128i4 => some (.fixedVectorTy (.integerTy 4) 128)
  | .v1i8 => some (.fixedVectorTy (.integerTy 8) 1)
  | .v2i8 => some (.fixedVectorTy (.integerTy 8) 2)
  | .v4i8 => some (.fixedVectorTy (.integerTy 8) 4)
  | .v8i8 => some (.fixedVectorTy (.integerTy 8) 8)
  | .v16i8 => some (.fixedVectorTy (.integerTy 8) 16)
  | .v32i8 => some (.fixedVectorTy (.integerTy 8) 32)
  | .v64i8 => some (.fixedVectorTy (.integerTy 8) 64)
  | .v128i8 => some (.fixedVectorTy (.integerTy 8) 128)
  | .v256i8 => some (.fixedVectorTy (.integerTy 8) 256)
  | .v512i8 => some (.fixedVectorTy (.integerTy 8) 512)
  | .v1024i8 => some (.fixedVectorTy (.integerTy 8) 1024)
  | .v1i16 => some (.fixedVectorTy (.integerTy 16) 1)
  | .v2i16 => some (.fixedVectorTy (.integerTy 16) 2)
  | .v3i16 => some (.fixedVectorTy (.integerTy 16) 3)
  | .v4i16 => some (.fixedVectorTy (.integerTy 16) 4)
  | .v8i16 => some (.fixedVectorTy (.integerTy 16) 8)
  | .v16i16 => some (.fixedVectorTy (.integerTy 16) 16)
  | .v32i16 => some (.fixedVectorTy (.integerTy 16) 32)
  | .v64i16 => some (.fixedVectorTy (.integerTy 16) 64)
  | .v128i16 => some (.fixedVectorTy (.integerTy 16) 128)
  | .v256i16 => some (.fixedVectorTy (.integerTy 16) 256)
  | .v512i16 => some (.fixedVectorTy (.integerTy 16) 512)
  | .v1i32 => some (.fixedVectorTy (.integerTy 32) 1)
  | .v2i32 => some (.fixedVectorTy (.integerTy 32) 2)
  | .v3i32 => some (.fixedVectorTy (.integerTy 32) 3)
  | .v4i32 => some (.fixedVectorTy (.integerTy 32) 4)
  | .v5i32 => some (.fixedVectorTy (.integerTy 32) 5)
  | .v6i32 => some (.fixedVectorTy (.integerTy 32) 6)
  | .v7i32 => some (.fixedVectorTy (.integerTy 32) 7)
  | .v8i32 => some (.fixedVectorTy (.integerTy 32) 8)
  | .v9i32 => some (.fixedVectorTy (.integerTy 32) 9)
  | .v10i32 => some (.fixedVectorTy (.integerTy 32) 10)
  | .v11i32 => some (.fixedVectorTy (.integerTy 32) 11)
  | .v12i32 => some (.fixedVectorTy (.integerTy 32) 12)
  | .v16i32 => some (.fixedVectorTy (.integerTy 32) 16)
  | .v32i32 => some (.fixedVectorTy (.integerTy 32) 32)
  | .v64i32 => some (.fixedVectorTy (.integerTy 32) 64)
  | .v128i32 => some (.fixedVectorTy (.integerTy 32) 128)
  | .v256i32 => some (.fixedVectorTy (.integerTy 32) 256)
  | .v512i32 => some (.fixedVectorTy (.integerTy 32) 512)
  | .v1024i32 => some (.fixedVectorTy (.integerTy 32) 1024)
  | .v2048i32 => some (.fixedVectorTy (.integerTy 32) 2048)
  | .v1i64 => some (.fixedVectorTy (.integerTy 64) 1)
  | .v2i64 => some (.fixedVectorTy (.integerTy 64) 2)
  | .v3i64 => some (.fixedVectorTy (.integerTy 64) 3)
  | .v4i64 => some (.fixedVectorTy (.integerTy 64) 4)
  | .v8i64 => some (.fixedVectorTy (.integerTy 64) 8)
  | .v16i64 => some (.fixedVectorTy (.integerTy 64) 16)
  | .v32i64 => some (.fixedVectorTy (.integerTy 64) 32)
  | .v64i64 => some (.fixedVectorTy (.integerTy 64) 64)
  | .v128i64 => some (.fixedVectorTy (.integerTy 64) 128)
  | .v256i64 => some (.fixedVectorTy (.integerTy 64) 256)
  | .v1i128 => some (.fixedVectorTy (.integerTy 128) 1)
  | .v1f16 => some (.fixedVectorTy (.halfTy) 1)
  | .v2f16 => some (.fixedVectorTy (.halfTy) 2)
  | .v3f16 => some (.fixedVectorTy (.halfTy) 3)
  | .v4f16 => some (.fixedVectorTy (.halfTy) 4)
  | .v8f16 => some (.fixedVectorTy (.halfTy) 8)
  | .v16f16 => some (.fixedVectorTy (.halfTy) 16)
  | .v32f16 => some (.fixedVectorTy (.halfTy) 32)
  | .v64f16 => some (.fixedVectorTy (.halfTy) 64)
  | .v128f16 => some (.fixedVectorTy (.halfTy) 128)
  | .v256f16 => some (.fixedVectorTy (.halfTy) 256)
  | .v512f16 => some (.fixedVectorTy (.halfTy) 512)
  | .v2bf16 => some (.fixedVectorTy (.bfloatTy) 2)
  | .v3bf16 => some (.fixedVectorTy (.bfloatTy) 3)
  | .v4bf16 => some (.fixedVectorTy (.bfloatTy) 4)
  | .v8bf16 => some (.fixedVectorTy (.bfloatTy) 8)
  | .v16bf16 => some (.fixedVectorTy (.bfloatTy) 16)
  | .v32bf16 => some (.fixedVectorTy (.bfloatTy) 32)
  | .v64bf16 => some (.fixedVectorTy (.bfloatTy) 64)
  | .v128bf16 => some (.fixedVectorTy (.bfloatTy) 128)
  | .v1f32 => some (.fixedVectorTy (.floatTy) 1)
  | .v2f32 => some (.fixedVectorTy (.floatTy) 2)
  | .v3f32 => some (.fixedVectorTy (.floatTy) 3)
  | .v4f32 => some (.fixedVectorTy (.floatTy) 4)
  | .v5f32 => some (.fixedVectorTy (.floatTy) 5)
  | .v6f32 => some (.fixedVectorTy (.floatTy) 6)
  | .v7f32 => some (.fixedVectorTy (.floatTy) 7)
  | .v8f32 => some (.fixedVectorTy (.floatTy) 8)
  | .v9f32 => some (.fixedVectorTy (.floatTy) 9)
  | .v10f32 => some (.fixedVectorTy (.floatTy) 10)
  | .v11f32 => some (.fixedVectorTy (.floatTy) 11)
  | .v12f32 => some (.fixedVectorTy (.floatTy) 12)
  | .v16f32 => some (.fixedVectorTy (.floatTy) 16)
  | .v32f32 => some (.fixedVectorTy (.floatTy) 32)
  | .v64f32 => some (.fixedVectorTy (.floatTy) 64)
  | .v128f32 => some (.fixedVectorTy (.floatTy) 128)
  | .v256f32 => some (.fixedVectorTy (.floatTy) 256)
  | .v512f32 => some (.fixedVectorTy (.floatTy) 512)
  | .v1024f32 => some (.fixedVectorTy (.floatTy) 1024)
  | .v2048f32 => some (.fixedVectorTy (.floatTy) 2048)
  | .v1f64 => some (.fixedVectorTy (.doubleTy) 1)
  | .v2f64 => some (.fixedVectorTy (.doubleTy) 2)
  | .v3f64 => some (.fixedVectorTy (.doubleTy) 3)
  | .v4f64 => some (.fixedVectorTy (.doubleTy) 4)
  | .v8f64 => some (.fixedVectorTy (.doubleTy) 8)
  | .v16f64 => some (.fixedVectorTy (.doubleTy) 16)
  | .v32f64 => some (.fixedVectorTy (.doubleTy) 32)
  | .v64f64 => some (.fixedVectorTy (.doubleTy) 64)
  | .v128f64 => some (.fixedVectorTy (.doubleTy) 128)
  | .v256f64 => some (.fixedVectorTy (.doubleTy) 256)
  | .nxv1i1 => some (.scalableVectorTy (.integerTy 1) 1)
  | .nxv2i1 => some (.scalableVectorTy (.integerTy 1) 2)
  | .nxv4i1 => some (.scalableVectorTy (.integerTy 1) 4)
  | .nxv8i1 => some (.scalableVectorTy (.integerTy 1) 8)
  | .nxv16i1 => some (.scalableVectorTy (.integerTy 1) 16)
  | .nxv32i1 => some (.scalableVectorTy (.integerTy 1) 32)
  | .nxv64i1 => some (.scalableVectorTy (.integerTy 1) 64)
  | .nxv1i8 => some (.scalableVectorTy (.integerTy 8) 1)
  | .nxv2i8 => some (.scalableVectorTy (.integerTy 8) 2)
  | .nxv4i8 => some (.scalableVectorTy (.integerTy 8) 4)
  | .nxv8i8 => some (.scalableVectorTy (.integerTy 8) 8)
  | .nxv16i8 => some (.scalableVectorTy (.integerTy 8) 16)
  | .nxv32i8 => some (.scalableVectorTy (.integerTy 8) 32)
  | .nxv64i8 => some (.scalableVectorTy (.integerTy 8) 64)
  | .nxv1i16 => some (.scalableVectorTy (.integerTy 16) 1)
  | .nxv2i16 => some (.scalableVectorTy (.integerTy 16) 2)
  | .nxv4i16 => some (.scalableVectorTy (.integerTy 16) 4)
  | .nxv8i16 => some (.scalableVectorTy (.integerTy 16) 8)
  | .nxv16i16 => some (.scalableVectorTy (.integerTy 16) 16)
  | .nxv32i16 => some (.scalableVectorTy (.integerTy 16) 32)
  | .nxv1i32 => some (.scalableVectorTy (.integerTy 32) 1)
  | .nxv2i32 => some (.scalableVectorTy (.integerTy 32) 2)
  | .nxv4i32 => some (.scalableVectorTy (.integerTy 32) 4)
  | .nxv8i32 => some (.scalableVectorTy (.integerTy 32) 8)
  | .nxv16i32 => some (.scalableVectorTy (.integerTy 32) 16)
  | .nxv32i32 => some (.scalableVectorTy (.integerTy 32) 32)
  | .nxv1i64 => some (.scalableVectorTy (.integerTy 64) 1)
  | .nxv2i64 => some (.scalableVectorTy (.integerTy 64) 2)
  | .nxv4i64 => some (.scalableVectorTy (.integerTy 64) 4)
  | .nxv8i64 => some (.scalableVectorTy (.integerTy 64) 8)
  | .nxv16i64 => some (.scalableVectorTy (.integerTy 64) 16)
  | .nxv32i64 => some (.scalableVectorTy (.integerTy 64) 32)
  | .nxv1f16 => some (.scalableVectorTy (.halfTy) 1)
  | .nxv2f16 => some (.scalableVectorTy (.halfTy) 2)
  | .nxv4f16 => some (.scalableVectorTy (.halfTy) 4)
  | .nxv8f16 => some (.scalableVectorTy (.halfTy) 8)
  | .nxv16f16 => some (.scalableVectorTy (.halfTy) 16)
  | .nxv32f16 => some (.scalableVectorTy (.halfTy) 32)
  | .nxv1bf16 => some (.scalableVectorTy (.bfloatTy) 1)
  | .nxv2bf16 => some (.scalableVectorTy (.bfloatTy) 2)
  | .nxv4bf16 => some (.scalableVectorTy (.bfloatTy) 4)
  | .nxv8bf16 => some (.scalableVectorTy (.bfloatTy) 8)
  | .nxv16bf16 => some (.scalableVectorTy (.bfloatTy) 16)
  | .nxv32bf16 => some (.scalableVectorTy (.bfloatTy) 32)
  | .nxv1f32 => some (.scalableVectorTy (.floatTy) 1)
  | .nxv2f32 => some (.scalableVectorTy (.floatTy) 2)
  | .nxv4f32 => some (.scalableVectorTy (.floatTy) 4)
  | .nxv8f32 => some (.scalableVectorTy (.floatTy) 8)
  | .nxv16f32 => some (.scalableVectorTy (.floatTy) 16)
  | .nxv1f64 => some (.scalableVectorTy (.doubleTy) 1)
  | .nxv2f64 => some (.scalableVectorTy (.doubleTy) 2)
  | .nxv4f64 => some (.scalableVectorTy (.doubleTy) 4)
  | .nxv8f64 => some (.scalableVectorTy (.doubleTy) 8)
  | .m1x1xi8 => some (.scalableMatrixTy (.integerTy 8) 1 1 false)
  | .m1x2xi8 => some (.scalableMatrixTy (.integerTy 8) 1 2 false)
  | .m1x4xi8 => some (.scalableMatrixTy (.integerTy 8) 1 4 false)
  | .m1x8xi8 => some (.scalableMatrixTy (.integerTy 8) 1 8 false)
  | .m1x16xi8 => some (.scalableMatrixTy (.integerTy 8) 1 16 false)
  | .m1x32xi8 => some (.scalableMatrixTy (.integerTy 8) 1 32 false)
  | .m1x64xi8 => some (.scalableMatrixTy (.integerTy 8) 1 64 false)
  | .m1x1xi16 => some (.scalableMatrixTy (.integerTy 16) 1 1 false)
  | .m1x2xi16 => some (.scalableMatrixTy (.integerTy 16) 1 2 false)
  | .m1x4xi16 => some (.scalableMatrixTy (.integerTy 16) 1 4 false)
  | .m1x8xi16 => some (.scalableMatrixTy (.integerTy 16) 1 8 false)
  | .m1x16xi16 => some (.scalableMatrixTy (.integerTy 16) 1 16 false)
  | .m1x32xi16 => some (.scalableMatrixTy (.integerTy 16) 1 32 false)
  | .m1x1xi32 => some (.scalableMatrixTy (.integerTy 32) 1 1 false)
  | .m1x2xi32 => some (.scalableMatrixTy (.integerTy 32) 1 2 false)
  | .m1x4xi32 => some (.scalableMatrixTy (.integerTy 32) 1 4 false)
  | .m1x8xi32 => some (.scalableMatrixTy (.integerTy 32) 1 8 false)
  | .m1x16xi32 => some (.scalableMatrixTy (.integerTy 32) 1 16 false)
  | .m1x1xi64 => some (.scalableMatrixTy (.integerTy 64) 1 1 false)
  | .m1x2xi64 => some (.scalableMatrixTy (.integerTy 64) 1 2 false)
  | .m1x4xi64 => some (.scalableMatrixTy (.integerTy 64) 1 4 false)
  | .m1x8xi64 => some (.scalableMatrixTy (.integerTy 64) 1 8 false)
  | .m1x1xbf16 => some (.scalableMatrixTy (.bfloatTy) 1 1 false)
  | .m1x2xbf16 => some (.scalableMatrixTy (.bfloatTy) 1 2 false)
  | .m1x4xbf16 => some (.scalableMatrixTy (.bfloatTy) 1 4 false)
  | .m1x8xbf16 => some (.scalableMatrixTy (.bfloatTy) 1 8 false)
  | .m1x16xbf16 => some (.scalableMatrixTy (.bfloatTy) 1 16 false)
  | .m1x32xbf16 => some (.scalableMatrixTy (.bfloatTy) 1 32 false)
  | .m1x1xf16 => some (.scalableMatrixTy (.halfTy) 1 1 false)
  | .m1x2xf16 => some (.scalableMatrixTy (.halfTy) 1 2 false)
  | .m1x4xf16 => some (.scalableMatrixTy (.halfTy) 1 4 false)
  | .m1x8xf16 => some (.scalableMatrixTy (.halfTy) 1 8 false)
  | .m1x16xf16 => some (.scalableMatrixTy (.halfTy) 1 16 false)
  | .m1x32xf16 => some (.scalableMatrixTy (.halfTy) 1 32 false)
  | .m1x1xf32 => some (.scalableMatrixTy (.floatTy) 1 1 false)
  | .m1x2xf32 => some (.scalableMatrixTy (.floatTy) 1 2 false)
  | .m1x4xf32 => some (.scalableMatrixTy (.floatTy) 1 4 false)
  | .m1x8xf32 => some (.scalableMatrixTy (.floatTy) 1 8 false)
  | .m1x16xf32 => some (.scalableMatrixTy (.floatTy) 1 16 false)
  | .m1x1xf64 => some (.scalableMatrixTy (.doubleTy) 1 1 false)
  | .m1x2xf64 => some (.scalableMatrixTy (.doubleTy) 1 2 false)
  | .m1x4xf64 => some (.scalableMatrixTy (.doubleTy) 1 4 false)
  | .m1x8xf64 => some (.scalableMatrixTy (.doubleTy) 1 8 false)
  | .mx1xnx1xi8 => some (.scalableMatrixTy (.integerTy 8) 1 1 true)
  | .mx1xnx2xi8 => some (.scalableMatrixTy (.integerTy 8) 1 2 true)
  | .mx1xnx4xi8 => some (.scalableMatrixTy (.integerTy 8) 1 4 true)
  | .mx1xnx8xi8 => some (.scalableMatrixTy (.integerTy 8) 1 8 true)
  | .mx1xnx16xi8 => some (.scalableMatrixTy (.integerTy 8) 1 16 true)
  | .mx1xnx32xi8 => some (.scalableMatrixTy (.integerTy 8) 1 32 true)
  | .mx1xnx64xi8 => some (.scalableMatrixTy (.integerTy 8) 1 64 true)
  | .mx1xnx1xi16 => some (.scalableMatrixTy (.integerTy 16) 1 1 true)
  | .mx1xnx2xi16 => some (.scalableMatrixTy (.integerTy 16) 1 2 true)
  | .mx1xnx4xi16 => some (.scalableMatrixTy (.integerTy 16) 1 4 true)
  | .mx1xnx8xi16 => some (.scalableMatrixTy (.integerTy 16) 1 8 true)
  | .mx1xnx16xi16 => some (.scalableMatrixTy (.integerTy 16) 1 16 true)
  | .mx1xnx32xi16 => some (.scalableMatrixTy (.integerTy 16) 1 32 true)
  | .mx1xnx1xi32 => some (.scalableMatrixTy (.integerTy 32) 1 1 true)
  | .mx1xnx2xi32 => some (.scalableMatrixTy (.integerTy 32) 1 2 true)
  | .mx1xnx4xi32 => some (.scalableMatrixTy (.integerTy 32) 1 4 true)
  | .mx1xnx8xi32 => some (.scalableMatrixTy (.integerTy 32) 1 8 true)
  | .mx1xnx16xi32 => some (.scalableMatrixTy (.integerTy 32) 1 16 true)
  | .mx1xnx1xi64 => some (.scalableMatrixTy (.integerTy 64) 1 1 true)
  | .mx1xnx2xi64 => some (.scalableMatrixTy (.integerTy 64) 1 2 true)
  | .mx1xnx4xi64 => some (.scalableMatrixTy (.integerTy 64) 1 4 true)
  | .mx1xnx8xi64 => some (.scalableMatrixTy (.integerTy 64) 1 8 true)
  | .mx1xnx1xbf16 => some (.scalableMatrixTy (.bfloatTy) 1 1 true)
  | .mx1xnx2xbf16 => some (.scalableMatrixTy (.bfloatTy) 1 2 true)
  | .mx1xnx4xbf16 => some (.scalableMatrixTy (.bfloatTy) 1 4 true)
  | .mx1xnx8xbf16 => some (.scalableMatrixTy (.bfloatTy) 1 8 true)
  | .mx1xnx16xbf16 => some (.scalableMatrixTy (.bfloatTy) 1 16 true)
  | .mx1xnx32xbf16 => some (.scalableMatrixTy (.bfloatTy) 1 32 true)
  | .mx1xnx1xf16 => some (.scalableMatrixTy (.halfTy) 1 1 true)
  | .mx1xnx2xf16 => some (.scalableMatrixTy (.halfTy) 1 2 true)
  | .mx1xnx4xf16 => some (.scalableMatrixTy (.halfTy) 1 4 true)
  | .mx1xnx8xf16 => some (.scalableMatrixTy (.halfTy) 1 8 true)
  | .mx1xnx16xf16 => some (.scalableMatrixTy (.halfTy) 1 16 true)
  | .mx1xnx32xf16 => some (.scalableMatrixTy (.halfTy) 1 32 true)
  | .mx1xnx1xf32 => some (.scalableMatrixTy (.floatTy) 1 1 true)
  | .mx1xnx2xf32 => some (.scalableMatrixTy (.floatTy) 1 2 true)
  | .mx1xnx4xf32 => some (.scalableMatrixTy (.floatTy) 1 4 true)
  | .mx1xnx8xf32 => some (.scalableMatrixTy (.floatTy) 1 8 true)
  | .mx1xnx16xf32 => some (.scalableMatrixTy (.floatTy) 1 16 true)
  | .mx1xnx1xf64 => some (.scalableMatrixTy (.doubleTy) 1 1 true)
  | .mx1xnx2xf64 => some (.scalableMatrixTy (.doubleTy) 1 2 true)
  | .mx1xnx4xf64 => some (.scalableMatrixTy (.doubleTy) 1 4 true)
  | .mx1xnx8xf64 => some (.scalableMatrixTy (.doubleTy) 1 8 true)
  | .Metadata => some (.metadataTy)
  | _ => none

/-- The (element tag, element count, scalable) decomposition of each
enumerated vector tag (the generated vector-type metadata the missing
header carries, read off the tag names / canonical types). -/
def vecInfo : SimpleValueType → Option (SimpleValueType × Nat × Bool)
  | .v1i1 => some (.i1, 1, false)
  | .v2i1 => some (.i1, 2, false)
  | .v4i1 => some (.i1, 4, false)
  | .v8i1 => some (.i1, 8, false)
  | .v16i1 => some (.i1, 16, false)
  | .v32i1 => some (.i1, 32, false)
  | .v64i1 => some (.i1, 64, false)
  | .v128i1 => some (.i1, 128, false)
  | .v256i1 => some (.i1, 256, false)
  | .v512i1 => some (.i1, 512, false)
  | .v1024i1 => some (.i1, 1024, false)
  | .v2048i1 => some (.i1, 2048, false)
  | .v128i2 => some (.i2, 128, false)
  | .v256i2 => some (.i2, 256, false)
  | .v64i4 => some (.i4, 64, false)
  | .v128i4 => some (.i4, 128, false)
  | .v1i8 => some (.i8, 1, false)
  | .v2i8 => some (.i8, 2, false)
  | .v4i8 => some (.i8, 4, false)
  | .v8i8 => some (.i8, 8, false)
  | .v16i8 => some (.i8, 16, false)
  | .v32i8 => some (.i8, 32, false)
  | .v64i8 => some (.i8, 64, false)
  | .v128i8 => some (.i8, 128, false)
  | .v256i8 => some (.i8, 256, false)
  | .v512i8 => some (.i8, 512, false)
  | .v1024i8 => some (.i8, 1024, false)
  | .v1i16 => some (.i16, 1, false)
  | .v2i16 => some (.i16, 2, false)
  | .v3i16 => some (.i16, 3, false)
  | .v4i16 => some (.i16, 4, false)
  | .v8i16 => some (.i16, 8, false)
  | .v16i16 => some (.i16, 16, false)
  | .v32i16 => some (.i16, 32, false)
  | .v64i16 => some (.i16, 64, false)
  | .v128i16 => some (.i16, 128, false)
  | .v256i16 => some (.i16, 256, false)
  | .v512i16 => some (.i16, 512, false)
  | .v1i32 => some (.i32, 1, false)
  | .v2i32 => some (.i32, 2, false)
  | .v3i32 => some (.i32, 3, false)
  | .v4i32 => some (.i32, 4, false)
  | .v5i32 => some (.i32, 5, false)
  | .v6i32 => some (.i32, 6, false)
  | .v7i32 => some (.i32, 7, false)
  | .v8i32 => some (.i32, 8, false)
  | .v9i32 => some (.i32, 9, false)
  | .v10i32 => some (.i32, 10, false)
  | .v11i32 => some (.i32, 11, false)
  | .v12i32 => some (.i32, 12, false)
  | .v16i32 => some (.i32, 16, false)
  | .v32i32 => some (.i32, 32, false)
  | .v64i32 => some (.i32, 64, false)
  | .v128i32 => some (.i32, 128, false)
  | .v256i32 => some (.i32, 256, false)
  | .v512i32 => some (.i32, 512, false)
  | .v1024i32 => some (.i32, 1024, false)
  | .v2048i32 => some (.i32, 2048, false)
  | .v1i64 => some (.i64, 1, false)
  | .v2i64 => some (.i64, 2, false)
  | .v3i64 => some (.i64, 3, false)
  | .v4i64 => some (.i64, 4, false)
  | .v8i64 => some (.i64, 8, false)
  | .v16i64 => some (.i64, 16, false)
  | .v32i64 => some (.i64, 32, false)
  | .v64i64 => some (.i64, 64, false)
  | .v128i64 => some (.i64, 128, false)
  | .v256i64 => some (.i64, 256, false)
  | .v1i128 => some (.i128, 1, false)
  | .v1f16 => some (.f16, 1, false)
  | .v2f16 => some (.f16, 2, false)
  | .v3f16 => some (.f16, 3, false)
  | .v4f16 => some (.f16, 4, false)
  | .v8f16 => some (.f16, 8, false)
  | .v16f16 => some (.f16, 16, false)
  | .v32f16 => some (.f16, 32, false)
  | .v64f16 => some (.f16, 64, false)
  | .v128f16 => some (.f16, 128, false)
  | .v256f16 => some (.f16, 256, false)
  | .v512f16 => some (.f16, 512, false)
  | .v2bf16 => some (.bf16, 2, false)
  | .v3bf16 => some (.bf16, 3, false)
  | .v4bf16 => some (.bf16, 4, false)
  | .v8bf16 => some (.bf16, 8, false)
  | .v16bf16 => some (.bf16, 16, false)
  | .v32bf16 => some (.bf16, 32, false)
  | .v64bf16 => some (.bf16, 64, false)
  | .v128bf16 => some (.bf16, 128, false)
  | .v1f32 => some (.f32, 1, false)
  | .v2f32 => some (.f32, 2, false)
  | .v3f32 => some (.f32, 3, false)
  | .v4f32 => some (.f32, 4, false)
  | .v5f32 => some (.f32, 5, false)
  | .v6f32 => some (.f32, 6, false)
  | .v7f32 => some (.f32, 7, false)
  | .v8f32 => some (.f32, 8, false)
  | .v9f32 => some (.f32, 9, false)
  | .v10f32 => some (.f32, 10, false)
  | .v11f32 => some (.f32, 11, false)
  | .v12f32 => some (.f32, 12, false)
  | .v16f32 => some (.f32, 16, false)
  | .v32f32 => some (.f32, 32, false)
  | .v64f32 => some (.f32, 64, false)
  | .v128f32 => some (.f32, 128, false)
  | .v256f32 => some (.f32, 256, false)
  | .v512f32 => some (.f32, 512, false)
  | .v1024f32 => some (.f32, 1024, false)
  | .v2048f32 => some (.f32, 2048, false)
  | .v1f64 => some (.f64, 1, false)
  | .v2f64 => some (.f64, 2, false)
  | .v3f64 => some (.f64, 3, false)
  | .v4f64 => some (.f64, 4, false)
  | .v8f64 => some (.f64, 8, false)
  | .v16f64 => some (.f64, 16, false)
  | .v32f64 => some (.f64, 32, false)
  | .v64f64 => some (.f64, 64, false)
  | .v128f64 => some (.f64, 128, false)
  | .v256f64 => some (.f64, 256, false)
  | .nxv1i1 => some (.i1, 1, true)
  | .nxv2i1 => some (.i1, 2, true)
  | .nxv4i1 => some (.i1, 4, true)
  | .nxv8i1 => some (.i1, 8, true)
  | .nxv16i1 => some (.i1, 16, true)
  | .nxv32i1 => some (.i1, 32, true)
  | .nxv64i1 => some (.i1, 64, true)
  | .nxv1i8 => some (.i8, 1, true)
  | .nxv2i8 => some (.i8, 2, true)
  | .nxv4i8 => some (.i8, 4, true)
  | .nxv8i8 => some (.i8, 8, true)
  | .nxv16i8 => some (.i8, 16, true)
  | .nxv32i8 => some (.i8, 32, true)
  | .nxv64i8 => some (.i8, 64, true)
  | .nxv1i16 => some (.i16, 1, true)
  | .nxv2i16 => some (.i16, 2, true)
  | .nxv4i16 => some (.i16, 4, true)
  | .nxv8i16 => some (.i16, 8, true)
  | .nxv16i16 => some (.i16, 16, true)
  | .nxv32i16 => some (.i16, 32, true)
  | .nxv1i32 => some (.i32, 1, true)
  | .nxv2i32 => some (.i32, 2, true)
  | .nxv4i32 => some (.i32, 4, true)
  | .nxv8i32 => some (.i32, 8, true)
  | .nxv16i32 => some (.i32, 16, true)
  | .nxv32i32 => some (.i32, 32, true)
  | .nxv1i64 => some (.i64, 1, true)
  | .nxv2i64 => some (.i64, 2, true)
  | .nxv4i64 => some (.i64, 4, true)
  | .nxv8i64 => some (.i64, 8, true)
  | .nxv16i64 => some (.i64, 16, true)
  | .nxv32i64 => some (.i64, 32, true)
  | .nxv1f16 => some (.f16, 1, true)
  | .nxv2f16 => some (.f16, 2, true)
  | .nxv4f16 => some (.f16, 4, true)
  | .nxv8f16 => some (.f16, 8, true)
  | .nxv16f16 => some (.f16, 16, true)
  | .nxv32f16 => some (.f16, 32, true)
  | .nxv1bf16 => some (.bf16, 1, true)
  | .nxv2bf16 => some (.bf16, 2, true)
  | .nxv4bf16 => some (.bf16, 4, true)
  | .nxv8bf16 => some (.bf16, 8, true)
  | .nxv16bf16 => some (.bf16, 16, true)
  | .nxv32bf16 => some (.bf16, 32, true)
  | .nxv1f32 => some (.f32, 1, true)
  | .nxv2f32 => some (.f32, 2, true)
  | .nxv4f32 => some (.f32, 4, true)
  | .nxv8f32 => some (.f32, 8, true)
  | .nxv16f32 => some (.f32, 16, true)
  | .nxv1f64 => some (.f64, 1, true)
  | .nxv2f64 => some (.f64, 2, true)
  | .nxv4f64 => some (.f64, 4, true)
  | .nxv8f64 => some (.f64, 8, true)
  | _ => none

/-- The (element tag, rows, columns, scalable) decomposition of each
enumerated matrix tag. -/
def matInfo : SimpleValueType → Option (SimpleValueType × Nat × Nat × Bool)
  | .m1x1xi8 => some (.i8, 1, 1, false)
  | .m1x2xi8 => some (.i8, 1, 2, false)
  | .m1x4xi8 => some (.i8, 1, 4, false)
  | .m1x8xi8 => some (.i8, 1, 8, false)
  | .m1x16xi8 => some (.i8, 1, 16, false)
  | .m1x32xi8 => some (.i8, 1, 32, false)
  | .m1x64xi8 => some (.i8, 1, 64, false)
  | .m1x1xi16 => some (.i16, 1, 1, false)
  | .m1x2xi16 => some (.i16, 1, 2, false)
  | .m1x4xi16 => some (.i16, 1, 4, false)
  | .m1x8xi16 => some (.i16, 1, 8, false)
  | .m1x16xi16 => some (.i16, 1, 16, false)
  | .m1x32xi16 => some (.i16, 1, 32, false)
  | .m1x1xi32 => some (.i32, 1, 1, false)
  | .m1x2xi32 => some (.i32, 1, 2, false)
  | .m1x4xi32 => some (.i32, 1, 4, false)
  | .m1x8xi32 => some (.i32, 1, 8, false)
  | .m1x16xi32 => some (.i32, 1, 16, false)
  | .m1x1xi64 => some (.i64, 1, 1, false)
  | .m1x2xi64 => some (.i64, 1, 2, false)
  | .m1x4xi64 => some (.i64, 1, 4, false)
  | .m1x8xi64 => some (.i64, 1, 8, false)
  | .m1x1xbf16 => some (.bf16, 1, 1, false)
  | .m1x2xbf16 => some (.bf16, 1, 2, false)
  | .m1x4xbf16 => some (.bf16, 1, 4, false)
  | .m1x8xbf16 => some (.bf16, 1, 8, false)
  | .m1x16xbf16 => some (.bf16, 1, 16, false)
  | .m1x32xbf16 => some (.bf16, 1, 32, false)
  | .m1x1xf16 => some (.f16, 1, 1, false)
  | .m1x2xf16 => some (.f16, 1, 2, false)
  | .m1x4xf16 => some (.f16, 1, 4, false)
  | .m1x8xf16 => some (.f16, 1, 8, false)
  | .m1x16xf16 => some (.f16, 1, 16, false)
  | .m1x32xf16 => some (.f16, 1, 32, false)
  | .m1x1xf32 => some (.f32, 1, 1, false)
  | .m1x2xf32 => some (.f32, 1, 2, false)
  | .m1x4xf32 => some (.f32, 1, 4, false)
  | .m1x8xf32 => some (.f32, 1, 8, false)
  | .m1x16xf32 => some (.f32, 1, 16, false)
  | .m1x1xf64 => some (.f64, 1, 1, false)
  | .m1x2xf64 => some (.f64, 1, 2, false)
  | .m1x4xf64 => some (.f64, 1, 4, false)
  | .m1x8xf64 => some (.f64, 1, 8, false)
  | .mx1xnx1xi8 => some (.i8, 1, 1, true)
  | .mx1xnx2xi8 => some (.i8, 1, 2, true)
  | .mx1xnx4xi8 => some (.i8, 1, 4, true)
  | .mx1xnx8xi8 => some (.i8, 1, 8, true)
  | .mx1xnx16xi8 => some (.i8, 1, 16, true)
  | .mx1xnx32xi8 => some (.i8, 1, 32, true)
  | .mx1xnx64xi8 => some (.i8, 1, 64, true)
  | .mx1xnx1xi16 => some (.i16, 1, 1, true)
  | .mx1xnx2xi16 => some (.i16, 1, 2, true)
  | .mx1xnx4xi16 => some (.i16, 1, 4, true)
  | .mx1xnx8xi16 => some (.i16, 1, 8, true)
  | .mx1xnx16xi16 => some (.i16, 1, 16, true)
  | .mx1xnx32xi16 => some (.i16, 1, 32, true)
  | .mx1xnx1xi32 => some (.i32, 1, 1, true)
  | .mx1xnx2xi32 => some (.i32, 1, 2, true)
  | .mx1xnx4xi32 => some (.i32, 1, 4, true)
  | .mx1xnx8xi32 => some (.i32, 1, 8, true)
  | .mx1xnx16xi32 => some (.i32, 1, 16, true)
  | .mx1xnx1xi64 => some (.i64, 1, 1, true)
  | .mx1xnx2xi64 => some (.i64, 1, 2, true)
  | .mx1xnx4xi64 => some (.i64, 1, 4, true)
  | .mx1xnx8xi64 => some (.i64, 1, 8, true)
  | .mx1xnx1xbf16 => some (.bf16, 1, 1, true)
  | .mx1xnx2xbf16 => some (.bf16, 1, 2, true)
  | .mx1xnx4xbf16 => some (.bf16, 1, 4, true)
  | .mx1xnx8xbf16 => some (.bf16, 1, 8, true)
  | .mx1xnx16xbf16 => some (.bf16, 1, 16, true)
  | .mx1xnx32xbf16 => some (.bf16, 1, 32, true)
  | .mx1xnx1xf16 => some (.f16, 1, 1, true)
  | .mx1xnx2xf16 => some (.f16, 1, 2, true)
  | .mx1xnx4xf16 => some (.f16, 1, 4, true)
  | .mx1xnx8xf16 => some (.f16, 1, 8, true)
  | .mx1xnx16xf16 => some (.f16, 1, 16, true)
  | .mx1xnx32xf16 => some (.f16, 1, 32, true)
  | .mx1xnx1xf32 => some (.f32, 1, 1, true)
  | .mx1xnx2xf32 => some (.f32, 1, 2, true)
  | .mx1xnx4xf32 => some (.f32, 1, 4, true)
  | .mx1xnx8xf32 => some (.f32, 1, 8, true)
  | .mx1xnx16xf32 => some (.f32, 1, 16, true)
  | .mx1xnx1xf64 => some (.f64, 1, 1, true)
  | .mx1xnx2xf64 => some (.f64, 1, 2, true)
  | .mx1xnx4xf64 => some (.f64, 1, 4, true)
  | .mx1xnx8xf64 => some (.f64, 1, 8, true)
  | _ => none

/-- Modelled from the spec: `MVT::getVectorVT(elementVT, count,
scalable)` from the missing generated header — "the enumerated vector
tag matching (elementType, count, scalability) triple", none when no
such enumerated combination exists. -/
def getVectorVT : SimpleValueType → Nat → Bool → Option SimpleValueType
  | .i1, 1, false => some .v1i1
  | .i1, 2, false => some .v2i1
  | .i1, 4, false => some .v4i1
  | .i1, 8, false => some .v8i1
  | .i1, 16, false => some .v16i1
  | .i1, 32, false => some .v32i1
  | .i1, 64, false => some .v64i1
  | .i1, 128, false => some .v128i1
  | .i1, 256, false => some .v256i1
  | .i1, 512, false => some .v512i1
  | .i1, 1024, false => some .v1024i1
  | .i1, 2048, false => some .v2048i1
  | .i2, 128, false => some .v128i2
  | .i2, 256, false => some .v256i2
  | .i4, 64, false => some .v64i4
  | .i4, 128, false => some .v128i4
  | .i8, 1, false => some .v1i8
  | .i8, 2, false => some .v2i8
  | .i8, 4, false => some .v4i8
  | .i8, 8, false => some .v8i8
  | .i8, 16, false => some .v16i8
  | .i8, 32, false => some .v32i8
  | .i8, 64, false => some .v64i8
  | .i8, 128, false => some .v128i8
  | .i8, 256, false => some .v256i8
  | .i8, 512, false => some .v512i8
  | .i8, 1024, false => some .v1024i8
  | .i16, 1, false => some .v1i16
  | .i16, 2, false => some .v2i16
  | .i16, 3, false => some .v3i16
  | .i16, 4, false => some .v4i16
  | .i16, 8, false => some .v8i16
  | .i16, 16, false => some .v16i16
  | .i16, 32, false => some .v32i16
  | .i16, 64, false => some .v64i16
  | .i16, 128, false => some .v128i16
  | .i16, 256, false => some .v256i16
  | .i16, 512, false => some .v512i16
  | .i32, 1, false => some .v1i32
  | .i32, 2, false => some .v2i32
  | .i32, 3, false => some .v3i32
  | .i32, 4, false => some .v4i32
  | .i32, 5, false => some .v5i32
  | .i32, 6, false => some .v6i32
  | .i32, 7, false => some .v7i32
  | .i32, 8, false => some .v8i32
  | .i32, 9, false => some .v9i32
  | .i32, 10, false => some .v10i32
  | .i32, 11, false => some .v11i32
  | .i32, 12, false => some .v12i32
  | .i32, 16, false => some .v16i32
  | .i32, 32, false => some .v32i32
  | .i32, 64, false => some .v64i32
  | .i32, 128, false => some .v128i32
  | .i32, 256, false => some .v256i32
  | .i32, 512, false => some .v512i32
  | .i32, 1024, false => some .v1024i32
  | .i32, 2048, false => some .v2048i32
  | .i64, 1, false => some .v1i64
  | .i64, 2, false => some .v2i64
  | .i64, 3, false => some .v3i64
  | .i64, 4, false => some .v4i64
  | .i64, 8, false => some .v8i64
  | .i64, 16, false => some .v16i64
  | .i64, 32, false => some .v32i64
  | .i64, 64, false => some .v64i64
  | .i64, 128, false => some .v128i64
  | .i64, 256, false => some .v256i64
  | .i128, 1, false => some .v1i128
  | .f16, 1, false => some .v1f16
  | .f16, 2, false => some .v2f16
  | .f16, 3, false => some .v3f16
  | .f16, 4, false => some .v4f16
  | .f16, 8, false => some .v8f16
  | .f16, 16, false => some .v16f16
  | .f16, 32, false => some .v32f16
  | .f16, 64, false => some .v64f16
  | .f16, 128, false => some .v128f16
  | .f16, 256, false => some .v256f16
  | .f16, 512, false => some .v512f16
  | .bf16, 2, false => some .v2bf16
  | .bf16, 3, false => some .v3bf16
  | .bf16, 4, false => some .v4bf16
  | .bf16, 8, false => some .v8bf16
  | .bf16, 16, false => some .v16bf16
  | .bf16, 32, false => some .v32bf16
  | .bf16, 64, false => some .v64bf16
  | .bf16, 128, false => some .v128bf16
  | .f32, 1, false => some .v1f32
  | .f32, 2, false => some .v2f32
  | .f32, 3, false => some .v3f32
  | .f32, 4, false => some .v4f32
  | .f32, 5, false => some .v5f32
  | .f32, 6, false => some .v6f32
  | .f32, 7, false => some .v7f32
  | .f32, 8, false => some .v8f32
  | .f32, 9, false => some .v9f32
  | .f32, 10, false => some .v10f32
  | .f32, 11, false => some .v11f32
  | .f32, 12, false => some .v12f32
  | .f32, 16, false => some .v16f32
  | .f32, 32, false => some .v32f32
  | .f32, 64, false => some .v64f32
  | .f32, 128, false => some .v128f32
  | .f32, 256, false => some .v256f32
  | .f32, 512, false => some .v512f32
  | .f32, 1024, false => some .v1024f32
  | .f32, 2048, false => some .v2048f32
  | .f64, 1, false => some .v1f64
  | .f64, 2, false => some .v2f64
  | .f64, 3, false => some .v3f64
  | .f64, 4, false => some .v4f64
  | .f64, 8, false => some .v8f64
  | .f64, 16, false => some .v16f64
  | .f64, 32, false => some .v32f64
  | .f64, 64, false => some .v64f64
  | .f64, 128, false => some .v128f64
  | .f64, 256, false => some .v256f64
  | .i1, 1, true => some .nxv1i1
  | .i1, 2, true => some .nxv2i1
  | .i1, 4, true => some .nxv4i1
  | .i1, 8, true => some .nxv8i1
  | .i1, 16, true => some .nxv16i1
  | .i1, 32, true => some .nxv32i1
  | .i1, 64, true => some .nxv64i1
  | .i8, 1, true => some .nxv1i8
  | .i8, 2, true => some .nxv2i8
  | .i8, 4, true => some .nxv4i8
  | .i8, 8, true => some .nxv8i8
  | .i8, 16, true => some .nxv16i8
  | .i8, 32, true => some .nxv32i8
  | .i8, 64, true => some .nxv64i8
  | .i16, 1, true => some .nxv1i16
  | .i16, 2, true => some .nxv2i16
  | .i16, 4, true => some .nxv4i16
  | .i16, 8, true => some .nxv8i16
  | .i16, 16, true => some .nxv16i16
  | .i16, 32, true => some .nxv32i16
  | .i32, 1, true => some .nxv1i32
  | .i32, 2, true => some .nxv2i32
  | .i32, 4, true => some .nxv4i32
  | .i32, 8, true => some .nxv8i32
  | .i32, 16, true => some .nxv16i32
  | .i32, 32, true => some .nxv32i32
  | .i64, 1, true => some .nxv1i64
  | .i64, 2, true => some .nxv2i64
  | .i64, 4, true => some .nxv4i64
  | .i64, 8, true => some .nxv8i64
  | .i64, 16, true => some .nxv16i64
  | .i64, 32, true => some .nxv32i64
  | .f16, 1, true => some .nxv1f16
  | .f16, 2, true => some .nxv2f16
  | .f16, 4, true => some .nxv4f16
  | .f16, 8, true => some .nxv8f16
  | .f16, 16, true => some .nxv16f16
  | .f16, 32, true => some .nxv32f16
  | .bf16, 1, true => some .nxv1bf16
  | .bf16, 2, true => some .nxv2bf16
  | .bf16, 4, true => some .nxv4bf16
  | .bf16, 8, true => some .nxv8bf16
  | .bf16, 16, true => some .nxv16bf16
  | .bf16, 32, true => some .nxv32bf16
  | .f32, 1, true => some .nxv1f32
  | .f32, 2, true => some .nxv2f32
  | .f32, 4, true => some .nxv4f32
  | .f32, 8, true => some .nxv8f32
  | .f32, 16, true => some .nxv16f32
  | .f64, 1, true => some .nxv1f64
  | .f64, 2, true => some .nxv2f64
  | .f64, 4, true => some .nxv4f64
  | .f64, 8, true => some .nxv8f64
  | _, _, _ => none

/-- Modelled from the spec: `MVT::getMatrixVT(elementVT, rows, columns,
scalable)` from the missing generated header — the enumerated matrix tag
matching the quadruple, none when no such combination exists. -/
def getMatrixVT : SimpleValueType → Nat → Nat → Bool → Option SimpleValueType
  | .i8, 1, 1, false => some .m1x1xi8
  | .i8, 1, 2, false => some .m1x2xi8
  | .i8, 1, 4, false => some .m1x4xi8
  | .i8, 1, 8, false => some .m1x8xi8
  | .i8, 1, 16, false => some .m1x16xi8
  | .i8, 1, 32, false => some .m1x32xi8
  | .i8, 1, 64, false => some .m1x64xi8
  | .i16, 1, 1, false => some .m1x1xi16
  | .i16, 1, 2, false => some .m1x2xi16
  | .i16, 1, 4, false => some .m1x4xi16
  | .i16, 1, 8, false => some .m1x8xi16
  | .i16, 1, 16, false => some .m1x16xi16
  | .i16, 1, 32, false => some .m1x32xi16
  | .i32, 1, 1, false => some .m1x1xi32
  | .i32, 1, 2, false => some .m1x2xi32
  | .i32, 1, 4, false => some .m1x4xi32
  | .i32, 1, 8, false => some .m1x8xi32
  | .i32, 1, 16, false => some .m1x16xi32
  | .i64, 1, 1, false => some .m1x1xi64
  | .i64, 1, 2, false => some .m1x2xi64
  | .i64, 1, 4, false => some .m1x4xi64
  | .i64, 1, 8, false => some .m1x8xi64
  | .bf16, 1, 1, false => some .m1x1xbf16
  | .bf16, 1, 2, false => some .m1x2xbf16
  | .bf16, 1, 4, false => some .m1x4xbf16
  | .bf16, 1, 8, false => some .m1x8xbf16
  | .bf16, 1, 16, false => some .m1x16xbf16
  | .bf16, 1, 32, false => some .m1x32xbf16
  | .f16, 1, 1, false => some .m1x1xf16
  | .f16, 1, 2, false => some .m1x2xf16
  | .f16, 1, 4, false => some .m1x4xf16
  | .f16, 1, 8, false => some .m1x8xf16
  | .f16, 1, 16, false => some .m1x16xf16
  | .f16, 1, 32, false => some .m1x32xf16
  | .f32, 1, 1, false => some .m1x1xf32
  | .f32, 1, 2, false => some .m1x2xf32
  | .f32, 1, 4, false => some .m1x4xf32
  | .f32, 1, 8, false => some .m1x8xf32
  | .f32, 1, 16, false => some .m1x16xf32
  | .f64, 1, 1, false => some .m1x1xf64
  | .f64, 1, 2, false => some .m1x2xf64
  | .f64, 1, 4, false => some .m1x4xf64
  | .f64, 1, 8, false => some .m1x8xf64
  | .i8, 1, 1, true => some .mx1xnx1xi8
  | .i8, 1, 2, true => some .mx1xnx2xi8
  | .i8, 1, 4, true => some .mx1xnx4xi8
  | .i8, 1, 8, true => some .mx1xnx8xi8
  | .i8, 1, 16, true => some .mx1xnx16xi8
  | .i8, 1, 32, true => some .mx1xnx32xi8
  | .i8, 1, 64, true => some .mx1xnx64xi8
  | .i16, 1, 1, true => some .mx1xnx1xi16
  | .i16, 1, 2, true => some .mx1xnx2xi16
  | .i16, 1, 4, true => some .mx1xnx4xi16
  | .i16, 1, 8, true => some .mx1xnx8xi16
  | .i16, 1, 16, true => some .mx1xnx16xi16
  | .i16, 1, 32, true => some .mx1xnx32xi16
  | .i32, 1, 1, true => some .mx1xnx1xi32
  | .i32, 1, 2, true => some .mx1xnx2xi32
  | .i32, 1, 4, true => some .mx1xnx4xi32
  | .i32, 1, 8, true => some .mx1xnx8xi32
  | .i32, 1, 16, true => some .mx1xnx16xi32
  | .i64, 1, 1, true => some .mx1xnx1xi64
  | .i64, 1, 2, true => some .mx1xnx2xi64
  | .i64, 1, 4, true => some .mx1xnx4xi64
  | .i64, 1, 8, true => some .mx1xnx8xi64
  | .bf16, 1, 1, true => some .mx1xnx1xbf16
  | .bf16, 1, 2, true => some .mx1xnx2xbf16
  | .bf16, 1, 4, true => some .mx1xnx4xbf16
  | .bf16, 1, 8, true => some .mx1xnx8xbf16
  | .bf16, 1, 16, true => some .mx1xnx16xbf16
  | .bf16, 1, 32, true => some .mx1xnx32xbf16
  | .f16, 1, 1, true => some .mx1xnx1xf16
  | .f16, 1, 2, true => some .mx1xnx2xf16
  | .f16, 1, 4, true => some .mx1xnx4xf16
  | .f16, 1, 8, true => some .mx1xnx8xf16
  | .f16, 1, 16, true => some .mx1xnx16xf16
  | .f16, 1, 32, true => some .mx1xnx32xf16
  | .f32, 1, 1, true => some .mx1xnx1xf32
  | .f32, 1, 2, true => some .mx1xnx2xf32
  | .f32, 1, 4, true => some .mx1xnx4xf32
  | .f32, 1, 8, true => some .mx1xnx8xf32
  | .f32, 1, 16, true => some .mx1xnx16xf32
  | .f64, 1, 1, true => some .mx1xnx1xf64
  | .f64, 1, 2, true => some .mx1xnx2xf64
  | .f64, 1, 4, true => some .mx1xnx4xf64
  | .f64, 1, 8, true => some .mx1xnx8xf64
  | _, _, _, _ => none

end SimpleValueType

/-- Modelled from the spec: `MVT::getIntegerVT` from the missing generated
header — the enumerated integer tag exactly matching the bit width, none
otherwise. -/
def SimpleValueType.getIntegerVT : Nat → Option SimpleValueType
  | 1 => some .i1
  | 2 => some .i2
  | 4 => some .i4
  | 8 => some .i8
  | 16 => some .i16
  | 32 => some .i32
  | 64 => some .i64
  | 128 => some .i128
  | _ => none

/-- `MVT::isVector()` (missing header): the tag is an enumerated vector tag. -/
def SimpleValueType.isVector (t : SimpleValueType) : Bool := (t.vecInfo).isSome

/-- `MVT::isMatrix()` (missing header): the tag is an enumerated matrix tag. -/
def SimpleValueType.isMatrix (t : SimpleValueType) : Bool := (t.matInfo).isSome

/-- `MVT::isValid()` (missing header): any simple tag other than the invalid
sentinel. -/
def SimpleValueType.isValid (t : SimpleValueType) : Bool :=
  t != SimpleValueType.INVALID_SIMPLE_VALUE_TYPE

/-- `MVT::isScalableTargetExtVT()` (missing header): the opaque scalable
target-extension tag. -/
def SimpleValueType.isScalableTargetExtVT (t : SimpleValueType) : Bool :=
  t == SimpleValueType.aarch64svcount

/-- Modelled from the spec: `MVT::getSizeInBits` (missing header), restricted
to the fixed bit widths of the non-vector, non-matrix tags — the only sizes
the embedded constructors read. Tags with no fixed bit width (`Other`,
`Glue`, `Untyped`, `Metadata`, `iPTR`, `spirvbuiltin`, `isVoid`,
`aarch64svcount`, the invalid sentinel) give none. -/
def SimpleValueType.getSizeInBits : SimpleValueType → Option Nat
  | .i1 => some 1
  | .i2 => some 2
  | .i4 => some 4
  | .i8 => some 8
  | .i16 => some 16
  | .i32 => some 32
  | .i64 => some 64
  | .i128 => some 128
  | .f16 => some 16
  | .bf16 => some 16
  | .f32 => some 32
  | .f64 => some 64
  | .f80 => some 80
  | .f128 => some 128
  | .ppcf128 => some 128
  | .x86mmx => some 64
  | .x86amx => some 8192
  | .i64x8 => some 512
  | .externref => some 0
  | .funcref => some 0
  | _ => none

/-- `MVT::getVT(Ty, HandleUnknown)` from the source: classification of a
structural type into the closed MVT space. The helpers it calls
(`getIntegerVT`, `getVectorVT`, `getMatrixVT`) are modelled from the spec:
an unmatched integer width or vector/matrix shape fails, or yields the
`Other` sentinel when `HandleUnknown` is set; a type kind outside the
switch hits its `default` (`Other` or unreachable). -/
def SimpleValueType.getVT (Ty : LLVMType) (HandleUnknown : Bool) :
    Option SimpleValueType :=
  match Ty with
  | .voidTy => some .isVoid
  | .integerTy BitWidth =>
      match getIntegerVT BitWidth with
      | some t => some t
      | none => if HandleUnknown then some .Other else none
  | .halfTy => some .f16
  | .bfloatTy => some .bf16
  | .floatTy => some .f32
  | .doubleTy => some .f64
  | .x86fp80Ty => some .f80
  | .x86mmxTy => some .x86mmx
  | .targetExtTy TypeName =>
      if TypeName = "aarch64.svcount" then some .aarch64svcount
      else if TypeName.startsWith "spirv." then some .spirvbuiltin
      else if HandleUnknown then some .Other else none
  | .x86amxTy => some .x86amx
  | .fp128Ty => some .f128
  | .ppcfp128Ty => some .ppcf128
  | .pointerTy _ => some .iPTR
  | .fixedVectorTy Elt NumElts =>
      match getVT Elt false with
      | some e =>
          match getVectorVT e NumElts false with
          | some t => some t
          | none => if HandleUnknown then some .Other else none
      | none => none
  | .scalableVectorTy Elt MinNumElts =>
      match getVT Elt false with
      | some e =>
          match getVectorVT e MinNumElts true with
          | some t => some t
          | none => if HandleUnknown then some .Other else none
      | none => none
  | .scalableMatrixTy Elt NumElts NumElts2 Scalable =>
      match getVT Elt false with
      | some e =>
          match getMatrixVT e NumElts NumElts2 Scalable with
          | some t => some t
          | none => if HandleUnknown then some .Other else none
      | none => none
  | .metadataTy => if HandleUnknown then some .Other else none

/-- Modelled from the spec: the LLT record (`llvm/CodeGen/LowLevelType.h` is
not among the sources) — a packed record with mutually exclusive
classification flags {pointer, matrix, vector, scalar} (none set = the
invalid state), an element count, a size in bits, an address space and the
matrix dimensions. -/
structure LLT where
  IsPointer : Bool
  IsMatrix : Bool
  IsVector : Bool
  IsScalar : Bool
  EC : ElementCount
  SizeInBits : Nat
  AddressSpace : Nat
  MatrixElements : Nat
  MatrixElements2 : Nat
  MatrixScalable : Bool
deriving DecidableEq, Repr

/-- `LLT::init(...)`, with the fields in the order the constructor passes
them (the matrix data defaults to zero at the two non-matrix call sites). -/
def LLT.init (IsPointer IsMatrix IsVector IsScalar : Bool) (EC : ElementCount)
    (SizeInBits AddressSpace MatrixElements MatrixElements2 : Nat)
    (MatrixScalable : Bool) : LLT :=
  ⟨IsPointer, IsMatrix, IsVector, IsScalar, EC, SizeInBits, AddressSpace,
   MatrixElements, MatrixElements2, MatrixScalable⟩

/-- The explicit invalid state: no classification flag set, all data zeroed. -/
def LLT.invalid : LLT :=
  ⟨false, false, false, false, ElementCount.getFixed 0, 0, 0, 0, 0, false⟩

/-- `LLT::LLT(MVT VT)` from the source. The matrix guard is the source's
`(VT.getMatrixNumElements() > 1 && VT.getMatrixNumElements() > 1) ||
VT.isScalableMatrix()` — the first dimension tested twice; the vector guard
is `VT.getVectorMinNumElements() > 1 || VT.isScalableVector()`. `none` when
the construction reads a bit width the tag does not have (a failing
`getSizeInBits` assertion). -/
def LLT.fromMVT (VT : SimpleValueType) : Option LLT :=
  match SimpleValueType.matInfo VT with
  | some (Elt, NumElems, NumElems2, Scalable) =>
      let asMatrix := (decide (1 < NumElems) && decide (1 < NumElems)) || Scalable
      (SimpleValueType.getSizeInBits Elt).map fun EltSize =>
        LLT.init false asMatrix false (!asMatrix) (ElementCount.getFixed 0)
          EltSize 0 NumElems NumElems2 Scalable
  | none =>
    match SimpleValueType.vecInfo VT with
    | some (Elt, MinNumElems, Scalable) =>
        let asVector := decide (1 < MinNumElems) || Scalable
        (SimpleValueType.getSizeInBits Elt).map fun EltSize =>
          LLT.init false false asVector (!asVector)
            (ElementCount.getWithScalable MinNumElems Scalable) EltSize 0 0 0 false
    | none =>
        if VT.isValid && !VT.isScalableTargetExtVT then
          (SimpleValueType.getSizeInBits VT).map fun Size =>
            LLT.init false false false true (ElementCount.getFixed 0) Size 0 0 0 false
        else
          some LLT.invalid

/-- `EVT`: per the spec, the tagged union {Simple(MVT), Extended(structural
type handle)} (`llvm/CodeGen/ValueTypes.h` itself is not among the
sources; the invariant there is that `isExtended()` holds exactly when the
simple tag is the invalid sentinel and the handle is non-null). -/
inductive EVT where
  | simple (VT : SimpleValueType)
  | extended (LLVMTy : LLVMType)
deriving DecidableEq, Repr

/-- `EVT::isExtended()`. -/
def EVT.isExtended : EVT → Bool
  | .simple _ => false
  | .extended _ => true

/-- `EVT::getTypeForEVT`: a simple tag goes through the table; an extended
EVT returns its held structural type directly. -/
def EVT.getTypeForEVT : EVT → Option LLVMType
  | .simple t => SimpleValueType.getTypeForEVT t
  | .extended Ty => some Ty

/-- Modelled from the spec: `EVT::getIntegerVT` — the simple tag when the
width is enumerated, else the extended fallback wrapping the integer type
(`EVT::getExtendedIntegerVT` from the source builds exactly
`IntegerType::get(Context, BitWidth)`). -/
def EVT.getIntegerVT (BitWidth : Nat) : EVT :=
  match SimpleValueType.getIntegerVT BitWidth with
  | some t => .simple t
  | none => .extended (.integerTy BitWidth)

/-- Modelled from the spec: `EVT::getVectorVT` — the simple tag when the
(element, count, scalability) triple is enumerated, else the extended
fallback (`EVT::getExtendedVectorVT` from the source builds
`VectorType::get(VT.getTypeForEVT(Context), NumElements, IsScalable)`). -/
def EVT.getVectorVT (VT : EVT) (NumElements : Nat) (IsScalable : Bool) :
    Option EVT :=
  match VT with
  | .simple e =>
      match SimpleValueType.getVectorVT e NumElements IsScalable with
      | some t => some (.simple t)
      | none =>
          (EVT.getTypeForEVT (.simple e)).map fun EltTy =>
            .extended (if IsScalable then .scalableVectorTy EltTy NumElements
                       else .fixedVectorTy EltTy NumElements)
  | .extended Ty =>
      some (.extended (if IsScalable then .scalableVectorTy Ty NumElements
                       else .fixedVectorTy Ty NumElements))

/-- Modelled from the spec: `EVT::getMatrixVT`, analogous to `getVectorVT`
with the matrix catalogue and `EVT::getExtendedMatrixVT` from the source
(which builds `ScalableMatrixType::get(...)`). -/
def EVT.getMatrixVT (VT : EVT) (NumElements NumElements2 : Nat)
    (IsScalable : Bool) : Option EVT :=
  match VT with
  | .simple e =>
      match SimpleValueType.getMatrixVT e NumElements NumElements2 IsScalable with
      | some t => some (.simple t)
      | none =>
          (EVT.getTypeForEVT (.simple e)).map fun EltTy =>
            .extended (.scalableMatrixTy EltTy NumElements NumElements2 IsScalable)
  | .extended Ty =>
      some (.extended (.scalableMatrixTy Ty NumElements NumElements2 IsScalable))

/-- `EVT::getEVT(Ty, HandleUnknown)` from the source: integers, vectors and
matrices recurse with the extended fallback; everything else defers to
`MVT::getVT`. -/
def EVT.getEVT (Ty : LLVMType) (HandleUnknown : Bool) : Option EVT :=
  match Ty with
  | .integerTy BitWidth => some (EVT.getIntegerVT BitWidth)
  | .fixedVectorTy Elt NumElts =>
      (EVT.getEVT Elt false).bind fun e => EVT.getVectorVT e NumElts false
  | .scalableVectorTy Elt MinNumElts =>
      (EVT.getEVT Elt false).bind fun e => EVT.getVectorVT e MinNumElts true
  | .scalableMatrixTy Elt NumElts NumElts2 Scalable =>
      (EVT.getEVT Elt false).bind fun e =>
        EVT.getMatrixVT e NumElts NumElts2 Scalable
  | _ => (SimpleValueType.getVT Ty HandleUnknown).map EVT.simple

/-- Modelled from the spec: `Type::getPrimitiveSizeInBits` of the external
structural type graph (0 for non-primitive types; a vector scales its
element's size by the element count, V-scaled when scalable). -/
def LLVMType.getPrimitiveSizeInBits : LLVMType → TypeSize
  | .integerTy BitWidth => TypeSize.getFixed BitWidth
  | .halfTy => TypeSize.getFixed 16
  | .bfloatTy => TypeSize.getFixed 16
  | .floatTy => TypeSize.getFixed 32
  | .doubleTy => TypeSize.getFixed 64
  | .x86fp80Ty => TypeSize.getFixed 80
  | .fp128Ty => TypeSize.getFixed 128
  | .ppcfp128Ty => TypeSize.getFixed 128
  | .x86mmxTy => TypeSize.getFixed 64
  | .x86amxTy => TypeSize.getFixed 8192
  | .fixedVectorTy Elt NumElts =>
      TypeSize.getFixed
        (FixedOrScalableQuantity.getKnownMinValue (getPrimitiveSizeInBits Elt) * NumElts)
  | .scalableVectorTy Elt MinNumElts =>
      TypeSize.getScalable
        (FixedOrScalableQuantity.getKnownMinValue (getPrimitiveSizeInBits Elt) * MinNumElts)
  | _ => TypeSize.getFixed 0

/-- `EVT::getExtendedSizeInBits` from the source: asserts the EVT is
extended; an extended integer returns its fixed bit width, an extended
vector delegates to the structural type's primitive size, anything else is
unreachable. -/
def EVT.getExtendedSizeInBits : EVT → Option TypeSize
  | .extended (.integerTy BitWidth) => some (TypeSize.getFixed BitWidth)
  | .extended (.fixedVectorTy Elt NumElts) =>
      some (LLVMType.getPrimitiveSizeInBits (.fixedVectorTy Elt NumElts))
  | .extended (.scalableVectorTy Elt MinNumElts) =>
      some (LLVMType.getPrimitiveSizeInBits (.scalableVectorTy Elt MinNumElts))
  | _ => none

/-- The five non-extended tags `getTypeForEVT`'s switch does not list (they
fall into its asserting `default`). -/
def noEntrySimpleTypes : List SimpleValueType :=
  [.Other, .Glue, .Untyped, .iPTR, .spirvbuiltin]

/-- The tags with a table entry whose canonical type does not classify back
to the same tag: `i64x8` (canonical type is a 512-bit integer, a width the
enumeration lacks), `Metadata` (`getVT` has no metadata case), and the Wasm
reference types (canonical pointer types classify back to `iPTR`). -/
def roundTripFailures : List SimpleValueType :=
  [.i64x8, .Metadata, .externref, .funcref]

end llvm

open llvm
open llvm.FixedOrScalableQuantity

/-- C1 counterexample: with `a` V-scaled of magnitude 5 and `b` untagged of
magnitude 3, `isKnownGT(a, b)` returns true, so it is not the case that all
four ordering predicates return false whenever the left operand is
scale-tagged and the right carries a different tag. -/
theorem C1_counterexample :
    isScalable ⟨5, ScaleID.V⟩ = true ∧
    isScalable ⟨3, ScaleID.None⟩ = false ∧
    isKnownGT ⟨5, ScaleID.V⟩ ⟨3, ScaleID.None⟩ = true := by
  decide

/-- C1 (amended): when `a` is scale-tagged and `b` carries a different tag
(including no tag), `isKnownLT`, `isKnownLE` and `isKnownGE` return false,
while `isKnownGT` returns the bare magnitude comparison
`a.getKnownMinValue > b.getKnownMinValue` (so all four return false when the
magnitudes are equal, but `isKnownGT` can assert an ordering). -/
theorem C1_conservative_ordering (a b : FixedOrScalableQuantity)
    (ha : isScalable a = true) (hab : a.Scale ≠ b.Scale) :
    isKnownLT a b = false ∧
    isKnownLE a b = false ∧
    isKnownGE a b = false ∧
    isKnownGT a b = decide (b.getKnownMinValue < a.getKnownMinValue) := by
  have h1 : (!isScalable a) = false := by simp [ha]
  have h2 : (b.Scale == a.Scale) = false := by
    simp only [beq_eq_false_iff_ne, ne_eq]
    exact fun h => hab h.symm
  refine ⟨?_, ?_, ?_, ?_⟩ <;>
    simp [isKnownLT, isKnownLE, isKnownGE, isKnownGT, h1, h2, ha]

/-- C1 witness: the amended statement evaluated at `a = ⟨5, V⟩`,
`b = ⟨3, None⟩`. -/
theorem C1_conservative_ordering_witness :
    isKnownLT ⟨5, ScaleID.V⟩ ⟨3, ScaleID.None⟩ = false ∧
    isKnownLE ⟨5, ScaleID.V⟩ ⟨3, ScaleID.None⟩ = false ∧
    isKnownGE ⟨5, ScaleID.V⟩ ⟨3, ScaleID.None⟩ = false ∧
    isKnownGT ⟨5, ScaleID.V⟩ ⟨3, ScaleID.None⟩ =
      decide (getKnownMinValue ⟨3, ScaleID.None⟩ < getKnownMinValue ⟨5, ScaleID.V⟩) :=
  C1_conservative_ordering ⟨5, ScaleID.V⟩ ⟨3, ScaleID.None⟩ (by decide) (by decide)

/-- C2: `StackOffset::get(0, 0, 3, 7, 0)` stores the `ScalableM` argument
into the `ScalableN` component as well: `getScalableN()` reads back 3, not
the 7 that was passed, so the five axes do not each receive their own
argument. -/
theorem C2_get_drops_scalableN :
    StackOffset.getScalableN (StackOffset.get 0 0 3 7 0) = 3 ∧
    StackOffset.getScalableM (StackOffset.get 0 0 3 7 0) = 3 ∧
    StackOffset.getScalableN (StackOffset.get 0 0 3 7 0) ≠ 7 := by
  decide

/-- C4 counterexample: `a = ⟨0, None⟩` and `b = ⟨5, V⟩` are compatible
(the left magnitude is zero), yet `(a + b) - b ≠ a`: the subtraction leaves
the V tag inherited from `b` on a zero quantity, and equality compares the
tag. -/
theorem C4_counterexample :
    compatible ⟨0, ScaleID.None⟩ ⟨5, ScaleID.V⟩ ∧
    sub 32 (add 32 ⟨0, ScaleID.None⟩ ⟨5, ScaleID.V⟩) ⟨5, ScaleID.V⟩ ≠
      ⟨0, ScaleID.None⟩ := by
  refine ⟨by simp [compatible], by decide⟩

/-- C4 (amended): for representable compatible quantities, `(a + b) - b = a`
holds when `b` is zero or `a` and `b` carry the same scale tag, and
`a + b = b + a` holds when at least one operand is non-zero or the tags
agree (the remaining cases are exactly the counterexample's: a zero operand
of a different tag). -/
theorem C4_algebra (w : Nat) (a b : FixedOrScalableQuantity)
    (ha : a.Quantity < 2 ^ w) (hb : b.Quantity < 2 ^ w)
    (hc : compatible a b) :
    ((b.Quantity = 0 ∨ a.Scale = b.Scale) → sub w (add w a b) b = a) ∧
    ((a.Quantity ≠ 0 ∨ b.Quantity ≠ 0 ∨ a.Scale = b.Scale) →
      add w a b = add w b a) := by
  obtain ⟨qa, sa⟩ := a
  obtain ⟨qb, sb⟩ := b
  simp only [compatible] at hc
  simp only at ha hb hc ⊢
  have hq : ((qa + qb) % 2 ^ w + (2 ^ w - qb % 2 ^ w)) % 2 ^ w = qa := by
    rw [Nat.mod_eq_of_lt hb, Nat.mod_add_mod]
    have h1 : qa + qb + (2 ^ w - qb) = qa + 2 ^ w := by omega
    rw [h1, Nat.add_mod_right]
    exact Nat.mod_eq_of_lt ha
  constructor
  · rintro (hz | hs)
    · simp [sub, add, isZero, hz, hq, Nat.mod_eq_of_lt ha]
    · by_cases hz : qb = 0
      · simp [sub, add, isZero, hz, hq, Nat.mod_eq_of_lt ha]
      · simp [sub, add, isZero, hz, hq, hs]
  · rintro h
    by_cases hza : qa = 0
    · by_cases hzb : qb = 0
      · have hs : sa = sb := by tauto
        simp [add, isZero, hza, hzb, hs]
      · simp [add, isZero, hza, hzb, Nat.add_comm]
    · by_cases hzb : qb = 0
      · simp [add, isZero, hza, hzb, Nat.add_comm]
      · have hs : sa = sb := by tauto
        simp [add, isZero, hza, hzb, hs, Nat.add_comm]

/-- C4 witness: the amended algebra evaluated at `a = ⟨3, V⟩`, `b = ⟨4, V⟩`
at width 32. -/
theorem C4_algebra_witness :
    sub 32 (add 32 ⟨3, ScaleID.V⟩ ⟨4, ScaleID.V⟩) ⟨4, ScaleID.V⟩ =
      ⟨3, ScaleID.V⟩ ∧
    add 32 ⟨3, ScaleID.V⟩ ⟨4, ScaleID.V⟩ = add 32 ⟨4, ScaleID.V⟩ ⟨3, ScaleID.V⟩ := by
  have h := C4_algebra 32 ⟨3, ScaleID.V⟩ ⟨4, ScaleID.V⟩ (by norm_num) (by norm_num)
    (Or.inr (Or.inr rfl))
  exact ⟨h.1 (Or.inr rfl), h.2 (Or.inr (Or.inr rfl))⟩

/-- C6 counterexample: `ElementCount::get(1, ScaleID::M)` is scalable with
non-zero magnitude, yet `isVector()` returns false, because the code tests
`isScalableV()` — only the V tag — rather than any scale tag. -/
theorem C6_counterexample :
    isScalable (ElementCount.get 1 ScaleID.M) = true ∧
    getKnownMinValue (ElementCount.get 1 ScaleID.M) = 1 ∧
    ElementCount.isVector (ElementCount.get 1 ScaleID.M) = false := by
  decide

/-- C6 (amended): `isScalar` holds exactly on non-scalable counts of
magnitude 1; `isVector` holds exactly when the magnitude exceeds 1 or the
count is V-scaled (not merely any-scale-tagged) with non-zero magnitude;
`getFixed(1)` is a scalar and `getScalable(1)` is a vector. -/
theorem C6_isScalar_isVector (c : ElementCount) :
    (ElementCount.isScalar c = true ↔
      (isScalable c = false ∧ getKnownMinValue c = 1)) ∧
    (ElementCount.isVector c = true ↔
      (1 < getKnownMinValue c ∨
        (isScalableV c = true ∧ getKnownMinValue c ≠ 0))) ∧
    ElementCount.isScalar (ElementCount.getFixed 1) = true ∧
    ElementCount.isVector (ElementCount.getScalable 1) = true := by
  obtain ⟨q, s⟩ := c
  refine ⟨?_, ?_, by decide, by decide⟩ <;> cases s <;>
    simp [ElementCount.isScalar, ElementCount.isVector, isScalable, isScalableV,
      getKnownMinValue, ScaleID.toBits] <;> omega

/-- C7 counterexample: at `x = TypeSize::getFixed(2^64 - 3)` and alignment 3
the first rounding yields magnitude `2^64 - 1`; re-aligning wraps modulo
`2^64` and collapses to 0, so `alignTo(alignTo(x, 3), 3) ≠ alignTo(x, 3)`. -/
theorem C7_counterexample :
    (alignTo (TypeSize.getFixed (2 ^ 64 - 3)) 3).bind (fun y => alignTo y 3) ≠
      alignTo (TypeSize.getFixed (2 ^ 64 - 3)) 3 := by
  decide

/-- C7 (amended): for non-zero alignment, `alignTo` succeeds, its magnitude
is a multiple of the alignment, the scale tag is preserved, and re-aligning
is the identity provided the first result does not sit within `n` of the
wraparound bound `2^64`; alignment 0 is a precondition violation. -/
theorem C7_alignTo (x : TypeSize) (n : Nat) (hn : n ≠ 0) :
    (∃ y, alignTo x n = some y ∧
      getKnownMinValue y % n = 0 ∧
      getScale y = getScale x ∧
      (getKnownMinValue y + n ≤ 2 ^ 64 → alignTo y n = some y)) ∧
    alignTo x 0 = none := by
  have hn' : 0 < n := Nat.pos_of_ne_zero hn
  refine ⟨⟨⟨(getKnownMinValue x + n - 1) % 2 ^ 64 / n * n, getScale x⟩,
    by simp [alignTo, hn], Nat.mul_mod_left _ _, rfl, ?_⟩, rfl⟩
  intro h
  simp only [getKnownMinValue] at h
  have h1 : (x.Quantity + n - 1) % 2 ^ 64 / n * n + n - 1 < 2 ^ 64 := by omega
  have h2 : ((x.Quantity + n - 1) % 2 ^ 64 / n * n + n - 1) / n =
      (x.Quantity + n - 1) % 2 ^ 64 / n := by
    have he : (x.Quantity + n - 1) % 2 ^ 64 / n * n + n - 1 =
        (n - 1) + (x.Quantity + n - 1) % 2 ^ 64 / n * n := by omega
    rw [he, Nat.add_mul_div_right _ _ hn', Nat.div_eq_of_lt (by omega), Nat.zero_add]
  rw [alignTo, if_neg hn]
  simp only [getKnownMinValue, getScale]
  rw [Nat.mod_eq_of_lt h1, h2]

/-- C7 witness: the amended statement evaluated at `x = getFixed 5`,
`n = 4`. -/
theorem C7_alignTo_witness :
    (∃ y, alignTo (TypeSize.getFixed 5) 4 = some y ∧
      getKnownMinValue y % 4 = 0 ∧
      getScale y = getScale (TypeSize.getFixed 5) ∧
      (getKnownMinValue y + 4 ≤ 2 ^ 64 → alignTo y 4 = some y)) ∧
    alignTo (TypeSize.getFixed 5) 0 = none :=
  C7_alignTo (TypeSize.getFixed 5) 4 (by norm_num)

/-- C9: `getFixedValue` fails (the invalid-fixed-request diagnostic) exactly
on non-zero scalable quantities, and returns the bare magnitude whenever the
quantity is not scalable or is zero. -/
theorem C9_getFixedValue (a : FixedOrScalableQuantity) :
    (getFixedValue a = none ↔
      (isScalable a = true ∧ getKnownMinValue a ≠ 0)) ∧
    ((isScalable a = false ∨ getKnownMinValue a = 0) →
      getFixedValue a = some (getKnownMinValue a)) := by
  obtain ⟨q, s⟩ := a
  cases s <;>
    simp [getFixedValue, isScalable, isZero, getKnownMinValue]

/-- C10: `divideCoefficientBy` and `hasKnownScalarFactor` are total whenever
the divisor magnitude is non-zero (and then compute the bare `/` and `%` on
magnitudes); `divideCoefficientBy` by 0 is undefined, and
`hasKnownScalarFactor` is defined at a zero divisor only when the scale tags
differ (the short-circuited `&&` skips the `%`). -/
theorem C10_division_guards (a b : FixedOrScalableQuantity) (r : Nat) :
    (r ≠ 0 → divideCoefficientBy a r =
      some ⟨getKnownMinValue a / r, getScale a⟩) ∧
    divideCoefficientBy a 0 = none ∧
    (getKnownMinValue b ≠ 0 → hasKnownScalarFactor a b =
      some (decide (getScale a = getScale b) &&
        (getKnownMinValue a % getKnownMinValue b == 0))) ∧
    ((hasKnownScalarFactor a b).isSome = true ↔
      (getKnownMinValue b ≠ 0 ∨ getScale a ≠ getScale b)) := by
  refine ⟨fun hr => by simp [divideCoefficientBy, hr], by simp [divideCoefficientBy], ?_, ?_⟩
  · intro hb
    by_cases hs : getScale a = getScale b <;>
      simp [hasKnownScalarFactor, hs, hb]
  · by_cases hs : getScale a = getScale b <;>
      by_cases hb : getKnownMinValue b = 0 <;>
      simp [hasKnownScalarFactor, hs, hb]

/-- C3 counterexample: `Other` is an enumerated non-extended tag with no
entry in `getTypeForEVT` (the table is not exhaustive over the non-extended
tags), and `i64x8` has an entry whose round trip through `getVT` fails (its
canonical type is a 512-bit integer, a width the enumeration lacks). -/
theorem C3_counterexample :
    SimpleValueType.getTypeForEVT SimpleValueType.Other = none ∧
    ((SimpleValueType.getTypeForEVT SimpleValueType.i64x8).bind
      fun Ty => SimpleValueType.getVT Ty false) = none := by
  decide

set_option maxRecDepth 100000

/-- C3 (amended): every non-extended tag except `Other`, `Glue`, `Untyped`,
`iPTR` and `spirvbuiltin` has exactly one entry in `getTypeForEVT`, and the
round trip `getVT(getTypeForEVT(t), false) == t` holds for every such tag
except `i64x8`, `Metadata`, `externref` and `funcref`. -/
theorem C3_table_round_trip (t : SimpleValueType)
    (ht : t ≠ SimpleValueType.INVALID_SIMPLE_VALUE_TYPE) :
    ((SimpleValueType.getTypeForEVT t).isSome = true ↔ t ∉ noEntrySimpleTypes) ∧
    (t ∉ noEntrySimpleTypes → t ∉ roundTripFailures →
      ((SimpleValueType.getTypeForEVT t).bind
        fun Ty => SimpleValueType.getVT Ty false) = some t) := by
  revert ht
  revert t
  decide

/-- C3 witness: the amended statement evaluated at the `i32` tag. -/
theorem C3_table_round_trip_witness :
    ((SimpleValueType.getTypeForEVT SimpleValueType.i32).isSome = true ↔
      SimpleValueType.i32 ∉ noEntrySimpleTypes) ∧
    (SimpleValueType.i32 ∉ noEntrySimpleTypes →
      SimpleValueType.i32 ∉ roundTripFailures →
      ((SimpleValueType.getTypeForEVT SimpleValueType.i32).bind
        fun Ty => SimpleValueType.getVT Ty false) = some SimpleValueType.i32) :=
  C3_table_round_trip SimpleValueType.i32 (by decide)

/-- C5: the machine-type constructor classifies the non-degenerate 1×2
non-scalable matrix tag `m1x2xi8` as a scalar (`IsScalar` set, `IsMatrix`
clear): the degeneracy test reads the first matrix dimension twice, so every
1×k non-scalable matrix collapses, not only the 1×1 one. The scalable 1×2
matrix tag keeps the matrix classification. -/
theorem C5_matrix_collapse :
    SimpleValueType.matInfo SimpleValueType.m1x2xi8 =
      some (SimpleValueType.i8, 1, 2, false) ∧
    (LLT.fromMVT SimpleValueType.m1x2xi8).map
      (fun l => (l.IsMatrix, l.IsVector, l.IsScalar, l.IsPointer)) =
      some (false, false, true, false) ∧
    (LLT.fromMVT SimpleValueType.mx1xnx2xi8).map
      (fun l => (l.IsMatrix, l.IsVector, l.IsScalar, l.IsPointer)) =
      some (true, false, false, false) := by
  decide

/-- C8: when an integer bit width has no enumerated MVT counterpart,
`getEVT` produces the extended EVT wrapping that integer type,
`isExtended()` holds of it, and `getExtendedSizeInBits` returns exactly the
original width as a fixed (non-scalable) TypeSize. -/
theorem C8_extended_integer_fallback (BitWidth : Nat) (HandleUnknown : Bool)
    (hw : SimpleValueType.getIntegerVT BitWidth = none) :
    EVT.getEVT (.integerTy BitWidth) HandleUnknown =
      some (EVT.extended (.integerTy BitWidth)) ∧
    EVT.isExtended (EVT.extended (.integerTy BitWidth)) = true ∧
    EVT.getExtendedSizeInBits (EVT.extended (.integerTy BitWidth)) =
      some (TypeSize.getFixed BitWidth) := by
  refine ⟨?_, rfl, rfl⟩
  simp [EVT.getEVT, EVT.getIntegerVT, hw]

/-- C8 witness: the 17-bit integer type falls back to an extended EVT of
fixed size 17. -/
theorem C8_extended_integer_fallback_witness :
    EVT.getEVT (.integerTy 17) false = some (EVT.extended (.integerTy 17)) ∧
    EVT.isExtended (EVT.extended (.integerTy 17)) = true ∧
    EVT.getExtendedSizeInBits (EVT.extended (.integerTy 17)) =
      some (TypeSize.getFixed 17) :=
  C8_extended_integer_fallback 17 false (by decide)
